import Mathlib

/-!
Shallow embedding of the valeri-audio recording pipeline.

Sources embedded here:
  - src/services/recordingProcessorService.ts (isQuotaError, transcribeAudio,
    generateSummary, processRecording, checkApiQuota)
  - src/services/storageService.ts (storeRecording, storeTranscriptionAndSummary)
  - src/services/ttsService.ts (generateSpeech)
  - src/services/recordingService.ts (processRecording orchestrator)
  - src/controllers/recordingController.ts (handleRecordingStatus)

External calls (fetch, axios/OpenAI requests, Twilio client, Supabase client)
are modelled by explicit oracles/environments describing the outcome of each
remote call, and the Supabase store is an explicit state threaded through the
functions. The Supabase storage upload follows the supabase-js client default:
an upload to an existing object name fails (the code passes no upsert flag),
and an insert appends a row while an update rewrites rows matched by the
filter, succeeding even when no row matches.
-/

namespace ValeriAudio

/-- JS-style truthiness for an optional string: undefined/null and the empty
string are falsy, every other string is truthy. -/
def jsTruthy (s : Option String) : Bool :=
  match s with
  | none => false
  | some str => !str.isEmpty

/-- JS `x || y` on an optional string `x` with string default `y`:
returns the default when `x` is undefined/null or empty. -/
def jsOrDefault (x : Option String) (dflt : String) : String :=
  match x with
  | none => dflt
  | some s => if s.isEmpty then dflt else s

/-- JS `x || null` on an optional string: empty string collapses to null. -/
def jsOrNull (x : Option String) : Option String :=
  match x with
  | none => none
  | some s => if s.isEmpty then none else some s

/-- Rendering a possibly-undefined string into a JS template literal:
`undefined` prints as the string "undefined". -/
def jsInterp (x : Option String) : String :=
  match x with
  | none => "undefined"
  | some s => s

/-- Whether the first character list starts with the second one. -/
def startsWithChars : List Char → List Char → Bool
  | _, [] => true
  | [], _ :: _ => false
  | c :: cs, d :: ds => c == d && startsWithChars cs ds

/-- Whether the needle occurs somewhere in the haystack. -/
def occursInChars (needle : List Char) : List Char → Bool
  | [] => needle.isEmpty
  | c :: cs => startsWithChars (c :: cs) needle || occursInChars needle cs

/-- Substring containment, modelling JS `String.prototype.includes`. -/
def containsSubstr (hay needle : String) : Bool :=
  occursInChars needle.toList hay.toList

/-- ASCII lowercasing of a string, modelling JS `toLowerCase` on the
ASCII messages involved here. -/
def toLowerStr (s : String) : String :=
  String.mk (s.toList.map Char.toLower)

/-! ## Error model (the `ApiError` shape of recordingProcessorService.ts) -/

/-- The `error` object inside an OpenAI-style API error response body. -/
structure ErrorBody where
  type : Option String
  code : Option String
  message : Option String
  deriving Repr, DecidableEq

/-- The `data` field of an axios-style error response. -/
structure RespData where
  error : Option ErrorBody
  deriving Repr, DecidableEq

/-- The `response` field of an axios-style error. -/
structure ErrResponse where
  data : Option RespData
  status : Option Nat
  deriving Repr, DecidableEq

/-- The `ApiError` interface: a JS Error with optional axios response data. -/
structure ApiError where
  message : Option String
  response : Option ErrResponse
  deriving Repr, DecidableEq

/-- Optional chaining `apiError.response?.data?.error?.code`. -/
def ApiError.respErrorCode (e : ApiError) : Option String :=
  ((e.response.bind ErrResponse.data).bind RespData.error).bind ErrorBody.code

/-- Optional chaining `apiError.response?.data?.error?.type`. -/
def ApiError.respErrorType (e : ApiError) : Option String :=
  ((e.response.bind ErrResponse.data).bind RespData.error).bind ErrorBody.type

/-- Optional chaining `apiError.response?.status`. -/
def ApiError.respStatus (e : ApiError) : Option Nat :=
  e.response.bind ErrResponse.status

/-- `isQuotaError` from recordingProcessorService.ts: quota/billing errors are
detected via error code, error type, HTTP 429 status, or a lowercase message
substring match on quota / billing / rate limit. -/
def isQuotaError (e : ApiError) : Bool :=
  if e.respErrorCode == some "insufficient_quota"
      || e.respErrorType == some "insufficient_quota" then
    true
  else if e.respStatus == some 429 then
    true
  else
    let errorMessage := (jsOrDefault (e.message.map toLowerStr) "")
    containsSubstr errorMessage "quota"
      || containsSubstr errorMessage "billing"
      || containsSubstr errorMessage "rate limit"

/-- A plain JS Error carrying only a message, as thrown by
`new Error(...)` in the services. -/
structure JsError where
  message : String
  deriving Repr, DecidableEq

/-- Viewing a plain thrown Error as the `ApiError` shape (no `response`),
as the catch blocks of recordingProcessorService.ts do when they cast
`error as ApiError`. -/
def JsError.asApiError (e : JsError) : ApiError :=
  { message := some e.message, response := none }

/-! ## Retry loops: transcribeAudio and generateSummary

The remote call made on each loop iteration is modelled by an oracle
`attempt : Nat → Except ApiError α` giving the outcome of the attempt made
when `retryCount` has the given value (0 for the first attempt).
Each loop returns, besides the Except value, the number of attempts started
and the list of backoff delays (in ms) awaited, in order, so that retry
counts and the backoff schedule are observable. -/

/-- Backoff delay in `transcribeAudio`:
`Math.min(1000 * Math.pow(2, retryCount), 30000)`. -/
def transcribeDelayMs (retryCount : Nat) : Nat :=
  min (1000 * 2 ^ retryCount) 30000

/-- Backoff delay in `generateSummary`:
`Math.min(1000 * Math.pow(2, retryCount), 10000)`. -/
def summaryDelayMs (retryCount : Nat) : Nat :=
  min (1000 * 2 ^ retryCount) 10000

/-- Observable trace of one retry loop run: attempts actually started and the
backoff delays awaited before retries, in order. -/
structure RetryTrace where
  attempts : Nat
  delays : List Nat
  deriving Repr, DecidableEq

/-- Result of a retry loop together with its trace. -/
structure LoopRun (α : Type) where
  result : Except JsError α
  trace : RetryTrace

/-- The `while (retryCount < maxRetries)` loop of `transcribeAudio`.
`fuel` equals `maxRetries - retryCount`, so the loop guard holds exactly when
`fuel > 0`; when the fuel runs out the post-loop
`throw new Error("Failed to transcribe after maximum retries")` fires. -/
def transcribeLoop (attempt : Nat → Except ApiError String) (maxRetries : Nat) :
    Nat → Nat → Nat → List Nat → LoopRun String
  | _retryCount, 0, att, delays =>
      { result := Except.error ⟨"Failed to transcribe after maximum retries"⟩
        trace := { attempts := att, delays := delays } }
  | retryCount, fuel + 1, att, delays =>
      let delays' := if retryCount > 0 then delays ++ [transcribeDelayMs retryCount] else delays
      match attempt retryCount with
      | Except.ok text =>
          { result := Except.ok text
            trace := { attempts := att + 1, delays := delays' } }
      | Except.error apiError =>
          if isQuotaError apiError then
            { result := Except.error
                ⟨"OpenAI API quota exceeded. Please check your billing details: "
                  ++ jsInterp apiError.message⟩
              trace := { attempts := att + 1, delays := delays' } }
          else
            let retryCount' := retryCount + 1
            if retryCount' ≥ maxRetries then
              { result := Except.error
                  ⟨"Transcription failed after " ++ toString maxRetries
                    ++ " attempts: " ++ jsInterp apiError.message⟩
                trace := { attempts := att + 1, delays := delays' } }
            else
              transcribeLoop attempt maxRetries retryCount' fuel (att + 1) delays'

/-- `transcribeAudio` from recordingProcessorService.ts: at most 5 attempts,
exponential backoff before each retry, quota errors thrown immediately,
terminal error after the retries are exhausted. -/
def transcribeAudio (attempt : Nat → Except ApiError String) : LoopRun String :=
  transcribeLoop attempt 5 0 5 0 []

/-- One successful chat-completion response, exposing
`response.choices[0]?.message?.content` (undefined/null content is `none`). -/
structure ChatResponse where
  content : Option String
  deriving Repr, DecidableEq

/-- The `while (retryCount < maxRetries)` loop of `generateSummary`.
On success it returns `content || "No summary generated"`; a quota error is
thrown; after exhausting the retries it returns the fallback string instead
of throwing; the line after the loop is the unreachable
`return "Unable to generate summary after multiple attempts"`. -/
def summaryLoop (attempt : Nat → Except ApiError ChatResponse) (maxRetries : Nat) :
    Nat → Nat → Nat → List Nat → LoopRun String
  | _retryCount, 0, att, delays =>
      { result := Except.ok "Unable to generate summary after multiple attempts"
        trace := { attempts := att, delays := delays } }
  | retryCount, fuel + 1, att, delays =>
      let delays' := if retryCount > 0 then delays ++ [summaryDelayMs retryCount] else delays
      match attempt retryCount with
      | Except.ok response =>
          { result := Except.ok (jsOrDefault response.content "No summary generated")
            trace := { attempts := att + 1, delays := delays' } }
      | Except.error apiError =>
          if isQuotaError apiError then
            { result := Except.error
                ⟨"OpenAI API quota exceeded when generating summary. Please check your billing details: "
                  ++ jsInterp apiError.message⟩
              trace := { attempts := att + 1, delays := delays' } }
          else
            let retryCount' := retryCount + 1
            if retryCount' ≥ maxRetries then
              { result := Except.ok "Error generating summary. Please try again later."
                trace := { attempts := att + 1, delays := delays' } }
            else
              summaryLoop attempt maxRetries retryCount' fuel (att + 1) delays'

/-- `generateSummary` from recordingProcessorService.ts: at most 3 attempts,
quota errors thrown, fallback string returned on retry exhaustion. -/
def generateSummary (attempt : Nat → Except ApiError ChatResponse) : LoopRun String :=
  summaryLoop attempt 3 0 3 0 []

/-- The transcription plus summary pair produced by the adapter. -/
structure ProcessedRecording where
  transcription : String
  summary : String
  deriving Repr, DecidableEq

/-- `RecordingProcessorService.processRecording`: transcribe, then summarize;
its catch block re-classifies a caught error via `isQuotaError` (on the plain
Error, so via the message substring) and throws a clarified quota message,
otherwise rethrows. -/
def rpProcessRecording (tAttempt : Nat → Except ApiError String)
    (sAttempt : Nat → Except ApiError ChatResponse) :
    Except JsError ProcessedRecording :=
  match (transcribeAudio tAttempt).result with
  | Except.error e =>
      if isQuotaError e.asApiError then
        Except.error ⟨"OpenAI API quota exceeded. Please check your billing details or try again later."⟩
      else
        Except.error e
  | Except.ok transcription =>
      match (generateSummary sAttempt).result with
      | Except.error e =>
          if isQuotaError e.asApiError then
            Except.error ⟨"OpenAI API quota exceeded. Please check your billing details or try again later."⟩
          else
            Except.error e
      | Except.ok summary =>
          Except.ok { transcription := transcription, summary := summary }

/-! ## Supabase model (storageService.ts, ttsService.ts)

The `recordings` storage bucket is a list of named objects and the
`recordings` table a list of metadata rows; both are threaded explicitly.
Per the supabase-js client used by the code: `upload` without an upsert
option fails when the object name already exists; `insert` appends a row;
`update(...).eq(...)` rewrites the matched rows and succeeds even when no
row matches; `getPublicUrl` is a pure function of the file name.
Provider-side failures of the remote calls are injected through a
`StorageEnv` oracle. -/

/-- Content of one object in the storage bucket. -/
inductive FileContent where
  | audio (bytes : List Nat) : FileContent
  | text (s : String) : FileContent
  deriving Repr, DecidableEq

/-- One row of the `recordings` table; `duration` is `none` when the stored
JS number is NaN, string fields stored as SQL null are `none`. -/
structure MetadataRow where
  recording_sid : String
  call_sid : String
  duration : Option Int
  audio_summary : Option String
  audio_url : String
  transcript_url : Option String
  created_at : String
  deriving Repr, DecidableEq

/-- The durable Supabase state: bucket objects and table rows. -/
structure Supa where
  objects : List (String × FileContent)
  recordings : List MetadataRow
  deriving Repr, DecidableEq

/-- `getPublicUrl`: deterministic public URL of a bucket object. -/
def getPublicUrl (fileName : String) : String :=
  "https://supabase.example.co/storage/v1/object/public/recordings/" ++ fileName

/-- Oracle for provider-side failures of one storage-service call: an injected
failure of the object upload and of the table write (insert or update). -/
structure StorageEnv where
  uploadError : Option String
  writeError : Option String
  deriving Repr, DecidableEq

/-- `supabase.storage.from(bucket).upload(fileName, content, opts)` with the
default upsert behaviour: fails when the object already exists. -/
def uploadObject (injected : Option String) (st : Supa) (fileName : String)
    (content : FileContent) : Except String Supa :=
  match injected with
  | some m => Except.error m
  | none =>
      if st.objects.any (fun p => p.1 == fileName) then
        Except.error "The resource already exists"
      else
        Except.ok { st with objects := st.objects ++ [(fileName, content)] }

/-- `supabase.from(table).insert(row)`: appends a row. -/
def insertRow (injected : Option String) (st : Supa) (row : MetadataRow) :
    Except String Supa :=
  match injected with
  | some m => Except.error m
  | none => Except.ok { st with recordings := st.recordings ++ [row] }

/-- The per-row effect of the metadata update: set transcript URL and
summary on the rows whose `recording_sid` matches. -/
def applyTranscriptUpdate (sid : String) (transcript_url : String)
    (summary : String) (r : MetadataRow) : MetadataRow :=
  if r.recording_sid == sid then
    { r with transcript_url := some transcript_url, audio_summary := some summary }
  else r

/-- `supabase.from(table).update(fields).eq("recording_sid", sid)`: rewrites
every matched row; succeeds even when no row matches. -/
def updateRows (injected : Option String) (st : Supa) (sid : String)
    (transcript_url : String) (summary : String) : Except String Supa :=
  match injected with
  | some m => Except.error m
  | none =>
      Except.ok
        { st with
          recordings := st.recordings.map (applyTranscriptUpdate sid transcript_url summary) }

/-- The `RecordingMetadata` interface of types/recording.ts. -/
structure RecordingMetadata where
  recording_sid : String
  call_sid : String
  duration : Option Int
  audio_url : Option String
  transcript_url : Option String
  audio_summary : Option String
  deriving Repr, DecidableEq

/-- `storeRecording` from storageService.ts: upload `{sid}.mp3`, take its
public URL, insert one metadata row (empty optional strings collapse to
null via `|| null`); `created_at` is the current timestamp `now`. The state
reached so far is kept on failure (a thrown error does not undo the upload). -/
def storeRecording (env : StorageEnv) (now : String) (st : Supa)
    (recording : FileContent) (metadata : RecordingMetadata) :
    (Except JsError String) × Supa :=
  let fileName := metadata.recording_sid ++ ".mp3"
  match uploadObject env.uploadError st fileName recording with
  | Except.error m => (Except.error ⟨"Failed to upload recording: " ++ m⟩, st)
  | Except.ok st1 =>
      let audio_url := getPublicUrl fileName
      match insertRow env.writeError st1
          { recording_sid := metadata.recording_sid
            call_sid := metadata.call_sid
            duration := metadata.duration
            audio_summary := jsOrNull metadata.audio_summary
            audio_url := audio_url
            transcript_url := jsOrNull metadata.transcript_url
            created_at := now } with
      | Except.error m => (Except.error ⟨"Failed to store metadata: " ++ m⟩, st1)
      | Except.ok st2 => (Except.ok audio_url, st2)

/-- `storeTranscriptionAndSummary` from storageService.ts: upload
`{sid}_transcript.txt`, take its public URL, update the matching metadata
row with transcript URL and summary. -/
def storeTranscriptionAndSummary (env : StorageEnv) (st : Supa)
    (recordingSid transcription summary : String) :
    (Except JsError (String × String)) × Supa :=
  let fileName := recordingSid ++ "_transcript.txt"
  match uploadObject env.uploadError st fileName (FileContent.text transcription) with
  | Except.error m => (Except.error ⟨"Failed to upload transcript: " ++ m⟩, st)
  | Except.ok st1 =>
      let transcript_url := getPublicUrl fileName
      match updateRows env.writeError st1 recordingSid transcript_url summary with
      | Except.error m =>
          (Except.error ⟨"Failed to update recording with transcript: " ++ m⟩, st1)
      | Except.ok st2 => (Except.ok (transcript_url, summary), st2)

/-- Oracle for one `generateSpeech` call: the outcome of the OpenAI TTS
request (audio bytes on success) and an injected upload failure. -/
structure TtsEnv where
  speechResult : Except ApiError (List Nat)
  uploadError : Option String

/-- `generateSpeech` from ttsService.ts: synthesize speech, upload
`{sid}_summary_speech.mp3`, return its public URL; any failure is rethrown
to the caller. -/
def generateSpeech (env : TtsEnv) (st : Supa) (_text : String)
    (recordingSid : String) : (Except JsError String) × Supa :=
  match env.speechResult with
  | Except.error e => (Except.error ⟨jsInterp e.message⟩, st)
  | Except.ok bytes =>
      let fileName := recordingSid ++ "_summary_speech.mp3"
      match uploadObject env.uploadError st fileName (FileContent.audio bytes) with
      | Except.error m => (Except.error ⟨"Failed to upload speech: " ++ m⟩, st)
      | Except.ok st1 => (Except.ok (getPublicUrl fileName), st1)

/-! ## JS parseInt -/

/-- JS whitespace stripped by `parseInt`. -/
def isJsWhitespace (c : Char) : Bool :=
  c == ' ' || c == '\t' || c == '\n' || c == '\r'

/-- Longest leading run of decimal digits, `none` when there is none
(the NaN case of `parseInt`). -/
def parseDigits : List Char → Option Nat → Option Nat
  | [], acc => acc
  | c :: cs, acc =>
      if c.isDigit then
        parseDigits cs (some ((acc.getD 0) * 10 + (c.toNat - 48)))
      else acc

/-- JS `parseInt(s)` on a possibly-undefined string, with NaN as `none`:
leading whitespace and an optional sign, then the longest digit prefix;
no digits (and the undefined argument) give NaN. -/
def parseIntJS (s : Option String) : Option Int :=
  match s with
  | none => none
  | some str =>
      let cs := str.toList.dropWhile isJsWhitespace
      match cs with
      | '-' :: rest => (parseDigits rest none).map (fun n => -(n : Int))
      | '+' :: rest => (parseDigits rest none).map (fun n => (n : Int))
      | _ => (parseDigits cs none).map (fun n => (n : Int))

/-! ## Orchestrator (recordingService.ts processRecording)

Every remote interaction of one pipeline run is an explicit oracle in
`OrchEnv`. The `Promise.all` fan-out is modelled by running both tasks to
completion — the storage task writes to the Supabase state whether or not
the transcription task fails, matching `Promise.all` (which does not cancel
the sibling task) — and failing the join when either task failed (when both
fail, the storage rejection is the one propagated). -/

/-- The response obtained by the `fetch` of the recording audio. -/
structure DownloadResponse where
  status : Nat
  statusText : String
  body : List Nat
  deriving Repr, DecidableEq

/-- `response.ok`: HTTP status in the 2xx range. -/
def responseOk (status : Nat) : Bool :=
  200 ≤ status && status ≤ 299

/-- The call resource returned by `twilioClient.calls(callSid).fetch()`;
`from_` models its `from` field (the caller number, possibly absent). -/
structure CallInfo where
  from_ : Option String
  deriving Repr, DecidableEq

/-- Oracles for every remote call of one `processRecording` run. -/
structure OrchEnv where
  download : DownloadResponse
  storage : StorageEnv
  tAttempt : Nat → Except ApiError String
  sAttempt : Nat → Except ApiError ChatResponse
  tsStorage : StorageEnv
  callLookup : Except JsError CallInfo
  tts : TtsEnv
  outboundCall : Except JsError Unit
  now : String

/-- Observable outcome of one orchestrator run: the promise result, the
final Supabase state, and whether speech synthesis / outbound-call placement
were invoked. -/
structure OrchOutcome where
  result : Except JsError Unit
  state : Supa
  ttsInvoked : Bool
  outboundCallInvoked : Bool

/-- The metadata value the orchestrator passes to `storeRecording`. -/
def orchMetadata (recordingSid callSid recordingUrl : String)
    (duration : Option String) : RecordingMetadata :=
  { recording_sid := recordingSid
    call_sid := callSid
    duration := parseIntJS duration
    audio_url := some recordingUrl
    transcript_url := some ""
    audio_summary := some "" }

/-- The text read back to the caller, wrapping the summary. -/
def summaryText (summary : String) : String :=
  "Hello, here is a summary of your recent call. " ++ summary
    ++ " Thank you for using our service. Goodbye."

/-- `processRecording` from recordingService.ts, the orchestrator:
download, concurrent store + transcribe/summarize, persist transcript and
summary, then the swallowed callback step. The outer catch only logs and
rethrows, so every error of steps 1 to 3 — and of the caller lookup, which
sits outside the inner try — propagates unchanged. -/
def processRecording (env : OrchEnv) (st0 : Supa)
    (recordingSid callSid recordingUrl : String) (duration : Option String) :
    OrchOutcome :=
  if !(responseOk env.download.status) then
    { result := Except.error
        ⟨"Failed to download recording: " ++ toString env.download.status
          ++ " " ++ env.download.statusText⟩
      state := st0, ttsInvoked := false, outboundCallInvoked := false }
  else
    let audioBuffer := FileContent.audio env.download.body
    let storagePair := storeRecording env.storage env.now st0 audioBuffer
      (orchMetadata recordingSid callSid recordingUrl duration)
    let st1 := storagePair.2
    let processingRes := rpProcessRecording env.tAttempt env.sAttempt
    match storagePair.1, processingRes with
    | Except.error e, _ =>
        { result := Except.error e, state := st1
          ttsInvoked := false, outboundCallInvoked := false }
    | Except.ok _, Except.error e =>
        { result := Except.error e, state := st1
          ttsInvoked := false, outboundCallInvoked := false }
    | Except.ok _, Except.ok processed =>
        let tsPair := storeTranscriptionAndSummary env.tsStorage st1 recordingSid
          processed.transcription processed.summary
        let st2 := tsPair.2
        match tsPair.1 with
        | Except.error e =>
            { result := Except.error e, state := st2
              ttsInvoked := false, outboundCallInvoked := false }
        | Except.ok _ =>
            match env.callLookup with
            | Except.error e =>
                { result := Except.error e, state := st2
                  ttsInvoked := false, outboundCallInvoked := false }
            | Except.ok call =>
                if jsTruthy call.from_ then
                  let speechPair := generateSpeech env.tts st2
                    (summaryText processed.summary) recordingSid
                  let st3 := speechPair.2
                  match speechPair.1 with
                  | Except.error _ =>
                      { result := Except.ok (), state := st3
                        ttsInvoked := true, outboundCallInvoked := false }
                  | Except.ok _ =>
                      match env.outboundCall with
                      | Except.error _ =>
                          { result := Except.ok (), state := st3
                            ttsInvoked := true, outboundCallInvoked := true }
                      | Except.ok _ =>
                          { result := Except.ok (), state := st3
                            ttsInvoked := true, outboundCallInvoked := true }
                else
                  { result := Except.ok (), state := st2
                    ttsInvoked := false, outboundCallInvoked := false }

/-! ## Controller (recordingController.ts handleRecordingStatus) -/

/-- The body of a `/recording-status` webhook request; each field may be
absent. -/
structure WebhookBody where
  RecordingUrl : Option String
  RecordingSid : Option String
  CallSid : Option String
  RecordingDuration : Option String
  RecordingStatus : Option String
  deriving Repr, DecidableEq

/-- The HTTP response sent by the controller. -/
inductive HttpOutcome where
  | badRequest (body : String) : HttpOutcome
  | okResponse (body : String) : HttpOutcome
  | serverError (body : String) : HttpOutcome
  deriving Repr, DecidableEq

/-- Observable outcome of one controller invocation. -/
structure ControllerOutcome where
  response : HttpOutcome
  state : Supa
  ttsInvoked : Bool
  outboundCallInvoked : Bool

/-- The HTTP response the controller sends for one orchestrator outcome:
200 when the promise resolved, 500 when it threw (the catch block). -/
def controllerRespond (o : OrchOutcome) : ControllerOutcome :=
  match o.result with
  | Except.ok _ =>
      { response := HttpOutcome.okResponse "Recording status processed"
        state := o.state, ttsInvoked := o.ttsInvoked
        outboundCallInvoked := o.outboundCallInvoked }
  | Except.error _ =>
      { response := HttpOutcome.serverError "Error processing recording status"
        state := o.state, ttsInvoked := o.ttsInvoked
        outboundCallInvoked := o.outboundCallInvoked }

/-- `handleRecordingStatus` from recordingController.ts: 400 when
RecordingUrl, RecordingSid or CallSid is falsy, otherwise hand off to the
orchestrator; 200 when it resolves, 500 when it throws. -/
def handleRecordingStatus (env : OrchEnv) (st : Supa) (body : WebhookBody) :
    ControllerOutcome :=
  if !(jsTruthy body.RecordingUrl) || !(jsTruthy body.RecordingSid)
      || !(jsTruthy body.CallSid) then
    { response := HttpOutcome.badRequest "Missing required fields in request"
      state := st, ttsInvoked := false, outboundCallInvoked := false }
  else
    controllerRespond (processRecording env st (body.RecordingSid.getD "")
      (body.CallSid.getD "") (body.RecordingUrl.getD "") body.RecordingDuration)

/-! ## Helper lemmas about the retry loops -/

theorem transcribeLoop_attempts_ge (attempt : Nat → Except ApiError String)
    (maxR : Nat) : ∀ fuel rc att delays,
    att ≤ (transcribeLoop attempt maxR rc fuel att delays).trace.attempts := by
  intro fuel
  induction fuel with
  | zero => intro rc att delays; simp [transcribeLoop]
  | succ n ih =>
    intro rc att delays
    simp only [transcribeLoop]
    cases h : attempt rc with
    | ok text => simp
    | error e =>
      by_cases hq : isQuotaError e
      · simp [hq]
      · simp only [hq, if_false, ge_iff_le, Bool.false_eq_true]
        by_cases hr : maxR ≤ rc + 1
        · simp [hr]
        · simp only [hr, if_false]
          exact le_trans (Nat.le_succ att) (ih (rc + 1) (att + 1) _)

theorem summaryLoop_attempts_ge (attempt : Nat → Except ApiError ChatResponse)
    (maxR : Nat) : ∀ fuel rc att delays,
    att ≤ (summaryLoop attempt maxR rc fuel att delays).trace.attempts := by
  intro fuel
  induction fuel with
  | zero => intro rc att delays; simp [summaryLoop]
  | succ n ih =>
    intro rc att delays
    simp only [summaryLoop]
    cases h : attempt rc with
    | ok r => simp
    | error e =>
      by_cases hq : isQuotaError e
      · simp [hq]
      · simp only [hq, if_false, ge_iff_le, Bool.false_eq_true]
        by_cases hr : maxR ≤ rc + 1
        · simp [hr]
        · simp only [hr, if_false]
          exact le_trans (Nat.le_succ att) (ih (rc + 1) (att + 1) _)

theorem transcribeLoop_delays_eq (attempt : Nat → Except ApiError String)
    (maxR : Nat) : ∀ fuel rc att delays, 1 ≤ rc →
    (transcribeLoop attempt maxR rc fuel att delays).trace.delays =
      delays ++ (List.range
          ((transcribeLoop attempt maxR rc fuel att delays).trace.attempts - att)).map
        (fun k => transcribeDelayMs (rc + k)) := by
  intro fuel
  induction fuel with
  | zero => intro rc att delays _; simp [transcribeLoop]
  | succ n ih =>
    intro rc att delays hrc
    have hpos : rc > 0 := hrc
    simp only [transcribeLoop, hpos, if_true]
    cases h : attempt rc with
    | ok text => simp [List.range_succ]
    | error e =>
      by_cases hq : isQuotaError e
      · simp [hq, List.range_succ]
      · simp only [hq, Bool.false_eq_true, if_false]
        by_cases hr : maxR ≤ rc + 1
        · simp [hr, List.range_succ]
        · simp only [ge_iff_le, hr, if_false]
          have hA := transcribeLoop_attempts_ge attempt maxR n (rc + 1) (att + 1)
            (delays ++ [transcribeDelayMs rc])
          obtain ⟨m, hm⟩ := Nat.exists_eq_add_of_le hA
          rw [ih (rc + 1) (att + 1) (delays ++ [transcribeDelayMs rc]) (Nat.le_add_left 1 rc)]
          rw [hm]
          have h1 : att + 1 + m - (att + 1) = m := by omega
          have h2 : att + 1 + m - att = m + 1 := by omega
          rw [h1, h2, List.range_succ_eq_map]
          have hfun : ((fun k => transcribeDelayMs (rc + k)) ∘ Nat.succ) =
              (fun k => transcribeDelayMs (rc + 1 + k)) := by
            funext k
            simp only [Function.comp_apply]
            congr 1
            omega
          simp only [List.map_cons, List.map_map, List.append_assoc,
            List.singleton_append, Nat.add_zero, hfun]

theorem summaryLoop_delays_eq (attempt : Nat → Except ApiError ChatResponse)
    (maxR : Nat) : ∀ fuel rc att delays, 1 ≤ rc →
    (summaryLoop attempt maxR rc fuel att delays).trace.delays =
      delays ++ (List.range
          ((summaryLoop attempt maxR rc fuel att delays).trace.attempts - att)).map
        (fun k => summaryDelayMs (rc + k)) := by
  intro fuel
  induction fuel with
  | zero => intro rc att delays _; simp [summaryLoop]
  | succ n ih =>
    intro rc att delays hrc
    have hpos : rc > 0 := hrc
    simp only [summaryLoop, hpos, if_true]
    cases h : attempt rc with
    | ok r => simp [List.range_succ]
    | error e =>
      by_cases hq : isQuotaError e
      · simp [hq, List.range_succ]
      · simp only [hq, Bool.false_eq_true, if_false]
        by_cases hr : maxR ≤ rc + 1
        · simp [hr, List.range_succ]
        · simp only [ge_iff_le, hr, if_false]
          have hA := summaryLoop_attempts_ge attempt maxR n (rc + 1) (att + 1)
            (delays ++ [summaryDelayMs rc])
          obtain ⟨m, hm⟩ := Nat.exists_eq_add_of_le hA
          rw [ih (rc + 1) (att + 1) (delays ++ [summaryDelayMs rc]) (Nat.le_add_left 1 rc)]
          rw [hm]
          have h1 : att + 1 + m - (att + 1) = m := by omega
          have h2 : att + 1 + m - att = m + 1 := by omega
          rw [h1, h2, List.range_succ_eq_map]
          have hfun : ((fun k => summaryDelayMs (rc + k)) ∘ Nat.succ) =
              (fun k => summaryDelayMs (rc + 1 + k)) := by
            funext k
            simp only [Function.comp_apply]
            congr 1
            omega
          simp only [List.map_cons, List.map_map, List.append_assoc,
            List.singleton_append, Nat.add_zero, hfun]

theorem transcribeLoop_allfail (attempt : Nat → Except ApiError String) (maxR : Nat)
    (hfail : ∀ k, ∃ e, attempt k = Except.error e ∧ isQuotaError e = false) :
    ∀ fuel rc att delays, rc + fuel = maxR → rc < maxR →
    (transcribeLoop attempt maxR rc fuel att delays).trace.attempts = att + fuel ∧
    ∃ m, (transcribeLoop attempt maxR rc fuel att delays).result =
      Except.error ⟨"Transcription failed after " ++ toString maxR ++ " attempts: " ++ m⟩ := by
  intro fuel
  induction fuel with
  | zero => intro rc att delays hsum hlt; omega
  | succ n ih =>
    intro rc att delays hsum hlt
    obtain ⟨e, he, hq⟩ := hfail rc
    simp only [transcribeLoop, he, hq, Bool.false_eq_true, if_false]
    by_cases hr : maxR ≤ rc + 1
    · have hn : n = 0 := by omega
      simp [hr, hn]
    · simp only [ge_iff_le, hr, if_false]
      have := ih (rc + 1) (att + 1) (if rc > 0 then delays ++ [transcribeDelayMs rc] else delays)
        (by omega) (by omega)
      constructor
      · rw [this.1]; omega
      · exact this.2

theorem summaryLoop_allfail (attempt : Nat → Except ApiError ChatResponse) (maxR : Nat)
    (hfail : ∀ k, ∃ e, attempt k = Except.error e ∧ isQuotaError e = false) :
    ∀ fuel rc att delays, rc + fuel = maxR → rc < maxR →
    (summaryLoop attempt maxR rc fuel att delays).trace.attempts = att + fuel ∧
    (summaryLoop attempt maxR rc fuel att delays).result =
      Except.ok "Error generating summary. Please try again later." := by
  intro fuel
  induction fuel with
  | zero => intro rc att delays hsum hlt; omega
  | succ n ih =>
    intro rc att delays hsum hlt
    obtain ⟨e, he, hq⟩ := hfail rc
    simp only [summaryLoop, he, hq, Bool.false_eq_true, if_false]
    by_cases hr : maxR ≤ rc + 1
    · have hn : n = 0 := by omega
      simp [hr, hn]
    · simp only [ge_iff_le, hr, if_false]
      have := ih (rc + 1) (att + 1) (if rc > 0 then delays ++ [summaryDelayMs rc] else delays)
        (by omega) (by omega)
      constructor
      · rw [this.1]; omega
      · exact this.2

/-! ## Helper lemmas about the storage services -/

/-- The metadata row inserted by a successful `storeRecording` call. -/
def insertedRow (md : RecordingMetadata) (now : String) : MetadataRow :=
  { recording_sid := md.recording_sid
    call_sid := md.call_sid
    duration := md.duration
    audio_summary := jsOrNull md.audio_summary
    audio_url := getPublicUrl (md.recording_sid ++ ".mp3")
    transcript_url := jsOrNull md.transcript_url
    created_at := now }

theorem uploadObject_ok_recordings (injected : Option String) (st : Supa)
    (fileName : String) (content : FileContent) (st' : Supa)
    (h : uploadObject injected st fileName content = Except.ok st') :
    st'.recordings = st.recordings := by
  unfold uploadObject at h
  cases injected with
  | some m => simp at h
  | none =>
    by_cases hd : st.objects.any (fun p => p.1 == fileName)
    · simp [hd] at h
    · simp [hd] at h
      rw [← h]

theorem storeRecording_ok (env : StorageEnv) (now : String) (st : Supa)
    (rec : FileContent) (md : RecordingMetadata) (u : String)
    (h : (storeRecording env now st rec md).1 = Except.ok u) :
    u = getPublicUrl (md.recording_sid ++ ".mp3") ∧
    (storeRecording env now st rec md).2.recordings =
      st.recordings ++ [insertedRow md now] := by
  unfold storeRecording at h ⊢
  cases hu : uploadObject env.uploadError st (md.recording_sid ++ ".mp3") rec with
  | error m => simp [hu] at h
  | ok st1 =>
    cases hi : insertRow env.writeError st1
        { recording_sid := md.recording_sid
          call_sid := md.call_sid
          duration := md.duration
          audio_summary := jsOrNull md.audio_summary
          audio_url := getPublicUrl (md.recording_sid ++ ".mp3")
          transcript_url := jsOrNull md.transcript_url
          created_at := now } with
    | error m => simp [hu, hi] at h
    | ok st2 =>
      simp [hu, hi] at h ⊢
      refine ⟨h.symm, ?_⟩
      unfold insertRow at hi
      cases hw : env.writeError with
      | some m => rw [hw] at hi; simp at hi
      | none =>
        rw [hw] at hi
        simp at hi
        rw [← hi]
        simp [insertedRow, uploadObject_ok_recordings _ _ _ _ _ hu]

theorem storeRecording_err (env : StorageEnv) (now : String) (st : Supa)
    (rec : FileContent) (md : RecordingMetadata) (e : JsError)
    (h : (storeRecording env now st rec md).1 = Except.error e) :
    (storeRecording env now st rec md).2.recordings = st.recordings := by
  unfold storeRecording at h ⊢
  cases hu : uploadObject env.uploadError st (md.recording_sid ++ ".mp3") rec with
  | error m => simp [hu]
  | ok st1 =>
    cases hi : insertRow env.writeError st1
        { recording_sid := md.recording_sid
          call_sid := md.call_sid
          duration := md.duration
          audio_summary := jsOrNull md.audio_summary
          audio_url := getPublicUrl (md.recording_sid ++ ".mp3")
          transcript_url := jsOrNull md.transcript_url
          created_at := now } with
    | error m => simp [hu, hi]; exact uploadObject_ok_recordings _ _ _ _ _ hu
    | ok st2 => simp [hu, hi] at h

theorem storeTS_ok (env : StorageEnv) (st : Supa) (sid t s : String)
    (v : String × String)
    (h : (storeTranscriptionAndSummary env st sid t s).1 = Except.ok v) :
    v = (getPublicUrl (sid ++ "_transcript.txt"), s) ∧
    (storeTranscriptionAndSummary env st sid t s).2.recordings =
      st.recordings.map
        (applyTranscriptUpdate sid (getPublicUrl (sid ++ "_transcript.txt")) s) := by
  unfold storeTranscriptionAndSummary at h ⊢
  cases hu : uploadObject env.uploadError st (sid ++ "_transcript.txt")
      (FileContent.text t) with
  | error m => simp [hu] at h
  | ok st1 =>
    cases hup : updateRows env.writeError st1 sid (getPublicUrl (sid ++ "_transcript.txt")) s with
    | error m => simp [hu, hup] at h
    | ok st2 =>
      simp [hu, hup] at h ⊢
      refine ⟨h.symm, ?_⟩
      unfold updateRows at hup
      cases hw : env.writeError with
      | some m => rw [hw] at hup; simp at hup
      | none =>
        rw [hw] at hup
        simp at hup
        rw [← hup]
        simp [uploadObject_ok_recordings _ _ _ _ _ hu]

theorem storeTS_err (env : StorageEnv) (st : Supa) (sid t s : String) (e : JsError)
    (h : (storeTranscriptionAndSummary env st sid t s).1 = Except.error e) :
    (storeTranscriptionAndSummary env st sid t s).2.recordings = st.recordings := by
  unfold storeTranscriptionAndSummary at h ⊢
  cases hu : uploadObject env.uploadError st (sid ++ "_transcript.txt")
      (FileContent.text t) with
  | error m => simp [hu]
  | ok st1 =>
    cases hup : updateRows env.writeError st1 sid (getPublicUrl (sid ++ "_transcript.txt")) s with
    | error m => simp [hu, hup]; exact uploadObject_ok_recordings _ _ _ _ _ hu
    | ok st2 => simp [hu, hup] at h

theorem generateSpeech_recordings (env : TtsEnv) (st : Supa) (t sid : String) :
    (generateSpeech env st t sid).2.recordings = st.recordings := by
  unfold generateSpeech
  cases hs : env.speechResult with
  | error e => simp
  | ok bytes =>
    cases hu : uploadObject env.uploadError st (sid ++ "_summary_speech.mp3")
        (FileContent.audio bytes) with
    | error m => simp [hu]
    | ok st1 => simp [hu]; exact uploadObject_ok_recordings _ _ _ _ _ hu

theorem applyTranscriptUpdate_sid (sid u s : String) (r : MetadataRow) :
    (applyTranscriptUpdate sid u s r).recording_sid = r.recording_sid := by
  unfold applyTranscriptUpdate
  by_cases h : r.recording_sid == sid <;> simp [h]

theorem applyTranscriptUpdate_audio_url (sid u s : String) (r : MetadataRow) :
    (applyTranscriptUpdate sid u s r).audio_url = r.audio_url := by
  unfold applyTranscriptUpdate
  by_cases h : r.recording_sid == sid <;> simp [h]

theorem applyTranscriptUpdate_duration (sid u s : String) (r : MetadataRow) :
    (applyTranscriptUpdate sid u s r).duration = r.duration := by
  unfold applyTranscriptUpdate
  by_cases h : r.recording_sid == sid <;> simp [h]

theorem transcribeLoop_attempts_succ (attempt : Nat → Except ApiError String)
    (maxR : Nat) : ∀ fuel rc att delays, 1 ≤ fuel →
    att + 1 ≤ (transcribeLoop attempt maxR rc fuel att delays).trace.attempts := by
  intro fuel
  cases fuel with
  | zero => intro rc att delays h; exact absurd h (by omega)
  | succ n =>
    intro rc att delays _
    simp only [transcribeLoop]
    cases h : attempt rc with
    | ok text => simp
    | error e =>
      by_cases hq : isQuotaError e
      · simp [hq]
      · simp only [hq, Bool.false_eq_true, if_false]
        by_cases hr : maxR ≤ rc + 1
        · simp [hr]
        · simp only [ge_iff_le, hr, if_false]
          exact transcribeLoop_attempts_ge attempt maxR n (rc + 1) (att + 1) _

theorem summaryLoop_attempts_succ (attempt : Nat → Except ApiError ChatResponse)
    (maxR : Nat) : ∀ fuel rc att delays, 1 ≤ fuel →
    att + 1 ≤ (summaryLoop attempt maxR rc fuel att delays).trace.attempts := by
  intro fuel
  cases fuel with
  | zero => intro rc att delays h; exact absurd h (by omega)
  | succ n =>
    intro rc att delays _
    simp only [summaryLoop]
    cases h : attempt rc with
    | ok r => simp
    | error e =>
      by_cases hq : isQuotaError e
      · simp [hq]
      · simp only [hq, Bool.false_eq_true, if_false]
        by_cases hr : maxR ≤ rc + 1
        · simp [hr]
        · simp only [ge_iff_le, hr, if_false]
          exact summaryLoop_attempts_ge attempt maxR n (rc + 1) (att + 1) _

theorem transcribeLoop_top_quota (attempt : Nat → Except ApiError String)
    (maxR n : Nat) (e : ApiError)
    (h : attempt 0 = Except.error e) (hq : isQuotaError e = true) :
    (transcribeLoop attempt maxR 0 (n + 1) 0 []).result = Except.error
      ⟨"OpenAI API quota exceeded. Please check your billing details: "
        ++ jsInterp e.message⟩ ∧
    (transcribeLoop attempt maxR 0 (n + 1) 0 []).trace =
      { attempts := 1, delays := [] } := by
  simp [transcribeLoop, h, hq]

theorem summaryLoop_top_quota (attempt : Nat → Except ApiError ChatResponse)
    (maxR n : Nat) (e : ApiError)
    (h : attempt 0 = Except.error e) (hq : isQuotaError e = true) :
    (summaryLoop attempt maxR 0 (n + 1) 0 []).result = Except.error
      ⟨"OpenAI API quota exceeded when generating summary. Please check your billing details: "
        ++ jsInterp e.message⟩ ∧
    (summaryLoop attempt maxR 0 (n + 1) 0 []).trace =
      { attempts := 1, delays := [] } := by
  simp [summaryLoop, h, hq]

theorem transcribeLoop_top_delays (attempt : Nat → Except ApiError String)
    (maxR n : Nat) :
    (transcribeLoop attempt maxR 0 (n + 1) 0 []).trace.delays =
      (List.range ((transcribeLoop attempt maxR 0 (n + 1) 0 []).trace.attempts - 1)).map
        (fun k => transcribeDelayMs (1 + k)) := by
  simp only [transcribeLoop]
  cases h : attempt 0 with
  | ok text => simp
  | error e =>
    by_cases hq : isQuotaError e
    · simp [hq]
    · simp only [hq, Bool.false_eq_true, if_false]
      by_cases hr : maxR ≤ 0 + 1
      · simp [hr]
      · simp only [ge_iff_le, hr, if_false]
        have := transcribeLoop_delays_eq attempt maxR n 1 1 [] (le_refl 1)
        simp only [gt_iff_lt, Nat.lt_irrefl, if_false, List.nil_append] at this ⊢
        exact this

theorem summaryLoop_top_delays (attempt : Nat → Except ApiError ChatResponse)
    (maxR n : Nat) :
    (summaryLoop attempt maxR 0 (n + 1) 0 []).trace.delays =
      (List.range ((summaryLoop attempt maxR 0 (n + 1) 0 []).trace.attempts - 1)).map
        (fun k => summaryDelayMs (1 + k)) := by
  simp only [summaryLoop]
  cases h : attempt 0 with
  | ok r => simp
  | error e =>
    by_cases hq : isQuotaError e
    · simp [hq]
    · simp only [hq, Bool.false_eq_true, if_false]
      by_cases hr : maxR ≤ 0 + 1
      · simp [hr]
      · simp only [ge_iff_le, hr, if_false]
        have := summaryLoop_delays_eq attempt maxR n 1 1 [] (le_refl 1)
        simp only [gt_iff_lt, Nat.lt_irrefl, if_false, List.nil_append] at this ⊢
        exact this

theorem summaryLoop_ok_cases (attempt : Nat → Except ApiError ChatResponse)
    (maxR : Nat) : ∀ fuel rc att delays s, rc + fuel = maxR → rc < maxR →
    (summaryLoop attempt maxR rc fuel att delays).result = Except.ok s →
    (∃ n r, attempt n = Except.ok r ∧ s = jsOrDefault r.content "No summary generated") ∨
    s = "Error generating summary. Please try again later." := by
  intro fuel
  induction fuel with
  | zero => intro rc att delays s hsum hlt; omega
  | succ n ih =>
    intro rc att delays s hsum hlt
    simp only [summaryLoop]
    cases h : attempt rc with
    | ok r =>
      intro hs
      simp at hs
      exact Or.inl ⟨rc, r, h, hs.symm⟩
    | error e =>
      by_cases hq : isQuotaError e
      · simp [hq]
      · simp only [hq, Bool.false_eq_true, if_false]
        by_cases hr : maxR ≤ rc + 1
        · simp only [ge_iff_le, hr, if_true]
          intro hs
          simp at hs
          exact Or.inr hs.symm
        · simp only [ge_iff_le, hr, if_false]
          exact ih (rc + 1) (att + 1) _ s (by omega) (by omega)

theorem jsOrDefault_some_empty (s : String) : jsOrDefault (some s) "" = s := by
  unfold jsOrDefault
  by_cases h : s.isEmpty
  · simp [h, (String.isEmpty_iff s).mp h]
  · simp [h]

theorem isQuotaError_of_conditions (e : ApiError)
    (h : e.respErrorCode = some "insufficient_quota" ∨
      e.respErrorType = some "insufficient_quota" ∨
      e.respStatus = some 429 ∨
      (∃ m, e.message = some m ∧
        (containsSubstr (toLowerStr m) "quota" = true ∨
          containsSubstr (toLowerStr m) "billing" = true ∨
          containsSubstr (toLowerStr m) "rate limit" = true))) :
    isQuotaError e = true := by
  unfold isQuotaError
  rcases h with h | h | h | ⟨m, hm, hc⟩
  · simp [h]
  · by_cases h1 : e.respErrorCode == some "insufficient_quota"
    · simp [h1]
    · simp [h]
  · by_cases h1 : (e.respErrorCode == some "insufficient_quota"
        || e.respErrorType == some "insufficient_quota")
    · simp at h1
      rcases h1 with h1 | h1 <;> simp [h1]
    · simp only [h1, Bool.false_eq_true, if_false]
      simp [h]
  · by_cases h1 : (e.respErrorCode == some "insufficient_quota"
        || e.respErrorType == some "insufficient_quota")
    · simp at h1
      rcases h1 with h1 | h1 <;> simp [h1]
    · simp only [h1, Bool.false_eq_true, if_false]
      by_cases h2 : e.respStatus == some 429
      · simp [h2]
      · simp only [h2, Bool.false_eq_true, if_false]
        rw [hm]
        simp only [Option.map_some']
        rw [jsOrDefault_some_empty]
        rcases hc with hc | hc | hc <;> simp [hc]

theorem transcribeLoop_top_retry (attempt : Nat → Except ApiError String)
    (maxR n : Nat) (e : ApiError)
    (h : attempt 0 = Except.error e) (hq : isQuotaError e = false)
    (hn : 1 ≤ n) (hm : ¬ (maxR ≤ 0 + 1)) :
    2 ≤ (transcribeLoop attempt maxR 0 (n + 1) 0 []).trace.attempts := by
  simp only [transcribeLoop, h, hq, Bool.false_eq_true, if_false, gt_iff_lt,
    Nat.lt_irrefl, ge_iff_le]
  rw [if_neg hm]
  exact transcribeLoop_attempts_succ attempt maxR n 1 1 [] hn

theorem summaryLoop_top_retry (attempt : Nat → Except ApiError ChatResponse)
    (maxR n : Nat) (e : ApiError)
    (h : attempt 0 = Except.error e) (hq : isQuotaError e = false)
    (hn : 1 ≤ n) (hm : ¬ (maxR ≤ 0 + 1)) :
    2 ≤ (summaryLoop attempt maxR 0 (n + 1) 0 []).trace.attempts := by
  simp only [summaryLoop, h, hq, Bool.false_eq_true, if_false, gt_iff_lt,
    Nat.lt_irrefl, ge_iff_le]
  rw [if_neg hm]
  exact summaryLoop_attempts_succ attempt maxR n 1 1 [] hn

/-! ## Shared concrete inputs for witnesses and counterexamples -/

/-- A concrete transient (non-quota) API error. -/
def boomError : ApiError := { message := some "boom", response := none }

/-- A concrete rate-limit API error (message substring classification). -/
def rateLimitError : ApiError := { message := some "Rate limit reached", response := none }

/-- Transcription oracle that fails transiently on every attempt. -/
def alwaysTransientT : Nat → Except ApiError String :=
  fun _ => Except.error boomError

/-- Summarization oracle that fails transiently on every attempt. -/
def alwaysTransientS : Nat → Except ApiError ChatResponse :=
  fun _ => Except.error boomError

/-- Summarization oracle that succeeds with a fixed summary. -/
def goodSAtt : Nat → Except ApiError ChatResponse :=
  fun _ => Except.ok { content := some "Quick summary" }

/-- The empty Supabase state. -/
def emptySupa : Supa := { objects := [], recordings := [] }

/-! ## Claims -/

/-- Claim C3: an API error whose code is insufficient_quota, or whose type is
insufficient_quota, or whose HTTP status is 429, or whose message contains
quota, billing or rate limit case-insensitively, is classified by
isQuotaError as a quota/billing error; on such an error both transcribeAudio
and generateSummary fail immediately with the distinct quota error, after
exactly one attempt and with no backoff delay; every non-quota error is
retried (a second attempt is always started). -/
theorem claim_C3_quota_classification (e : ApiError)
    (h : e.respErrorCode = some "insufficient_quota" ∨
      e.respErrorType = some "insufficient_quota" ∨
      e.respStatus = some 429 ∨
      (∃ m, e.message = some m ∧
        (containsSubstr (toLowerStr m) "quota" = true ∨
          containsSubstr (toLowerStr m) "billing" = true ∨
          containsSubstr (toLowerStr m) "rate limit" = true))) :
    isQuotaError e = true ∧
    (∀ tAtt : Nat → Except ApiError String, tAtt 0 = Except.error e →
      (transcribeAudio tAtt).result = Except.error
        ⟨"OpenAI API quota exceeded. Please check your billing details: "
          ++ jsInterp e.message⟩ ∧
      (transcribeAudio tAtt).trace = { attempts := 1, delays := [] }) ∧
    (∀ sAtt : Nat → Except ApiError ChatResponse, sAtt 0 = Except.error e →
      (generateSummary sAtt).result = Except.error
        ⟨"OpenAI API quota exceeded when generating summary. Please check your billing details: "
          ++ jsInterp e.message⟩ ∧
      (generateSummary sAtt).trace = { attempts := 1, delays := [] }) ∧
    (∀ e2 : ApiError, isQuotaError e2 = false →
      (∀ tAtt : Nat → Except ApiError String, tAtt 0 = Except.error e2 →
        2 ≤ (transcribeAudio tAtt).trace.attempts) ∧
      (∀ sAtt : Nat → Except ApiError ChatResponse, sAtt 0 = Except.error e2 →
        2 ≤ (generateSummary sAtt).trace.attempts)) := by
  have hq := isQuotaError_of_conditions e h
  refine ⟨hq, ?_, ?_, ?_⟩
  · intro tAtt h0
    exact transcribeLoop_top_quota tAtt 5 4 e h0 hq
  · intro sAtt h0
    exact summaryLoop_top_quota sAtt 3 2 e h0 hq
  · intro e2 hq2
    constructor
    · intro tAtt h0
      exact transcribeLoop_top_retry tAtt 5 4 e2 h0 hq2 (by omega) (by omega)
    · intro sAtt h0
      exact summaryLoop_top_retry sAtt 3 2 e2 h0 hq2 (by omega) (by omega)

/-- Witness for claim C3 at the concrete rate-limit error and the concrete
transient error. -/
theorem claim_C3_quota_classification_witness :
    isQuotaError rateLimitError = true ∧
    (transcribeAudio (fun _ => Except.error rateLimitError)).trace =
      { attempts := 1, delays := [] } ∧
    (generateSummary (fun _ => Except.error rateLimitError)).trace =
      { attempts := 1, delays := [] } ∧
    2 ≤ (transcribeAudio alwaysTransientT).trace.attempts := by
  have h := claim_C3_quota_classification rateLimitError
    (Or.inr (Or.inr (Or.inr ⟨"Rate limit reached", rfl, Or.inr (Or.inr (by decide))⟩)))
  exact ⟨h.1, (h.2.1 _ rfl).2, (h.2.2.1 _ rfl).2,
    (h.2.2.2 boomError (by decide)).1 alwaysTransientT rfl⟩

/-- Claim C4: on a transient failure at every attempt, transcribeAudio makes
exactly 5 attempts and then throws the terminal transcription error, while
generateSummary makes exactly 3 attempts and then returns the fallback
placeholder string instead of throwing. -/
theorem claim_C4_retry_exhaustion (tAtt : Nat → Except ApiError String)
    (sAtt : Nat → Except ApiError ChatResponse)
    (ht : ∀ k, ∃ e, tAtt k = Except.error e ∧ isQuotaError e = false)
    (hs : ∀ k, ∃ e, sAtt k = Except.error e ∧ isQuotaError e = false) :
    (transcribeAudio tAtt).trace.attempts = 5 ∧
    (∃ m, (transcribeAudio tAtt).result = Except.error
      ⟨"Transcription failed after 5 attempts: " ++ m⟩) ∧
    (generateSummary sAtt).trace.attempts = 3 ∧
    (generateSummary sAtt).result =
      Except.ok "Error generating summary. Please try again later." := by
  have h1 := transcribeLoop_allfail tAtt 5 ht 5 0 0 [] (by omega) (by omega)
  have h2 := summaryLoop_allfail sAtt 3 hs 3 0 0 [] (by omega) (by omega)
  refine ⟨h1.1, ?_, h2.1, h2.2⟩
  obtain ⟨m, hm⟩ := h1.2
  exact ⟨m, hm⟩

/-- Witness for claim C4 at the always-transiently-failing oracles. -/
theorem claim_C4_retry_exhaustion_witness :
    (transcribeAudio alwaysTransientT).trace.attempts = 5 ∧
    (generateSummary alwaysTransientS).trace.attempts = 3 ∧
    (generateSummary alwaysTransientS).result =
      Except.ok "Error generating summary. Please try again later." := by
  have h := claim_C4_retry_exhaustion alwaysTransientT alwaysTransientS
    (fun k => ⟨boomError, rfl, by decide⟩) (fun k => ⟨boomError, rfl, by decide⟩)
  exact ⟨h.1, h.2.2.1, h.2.2.2⟩

/-- Counterexample to claim C5 as stated: with a transient failure on every
attempt, the backoff delay awaited before the first retry is 2000 ms in both
loops, not the claimed 1000 ms (and the full transcription schedule is
2s, 4s, 8s, 16s, never reaching the 30s cap). -/
theorem claim_C5_counterexample :
    (transcribeAudio alwaysTransientT).trace.delays = [2000, 4000, 8000, 16000] ∧
    (generateSummary alwaysTransientS).trace.delays = [2000, 4000] ∧
    (transcribeAudio alwaysTransientT).trace.delays.head? = some 2000 ∧
    (generateSummary alwaysTransientS).trace.delays.head? = some 2000 ∧
    (2000 : Nat) ≠ 1000 :=
  ⟨by decide, by decide, by decide, by decide, by decide⟩

/-- Claim C5 amended: the backoff delay before the n-th retry is
min(1000 · 2^n, cap) ms — 2s, 4s, 8s, … — capped at 30s in transcribeAudio
and at 10s in generateSummary; the schedule doubles from a 2-second start,
not from 1 second. -/
theorem claim_C5_amended_backoff_schedule :
    (∀ tAtt : Nat → Except ApiError String,
      (transcribeAudio tAtt).trace.delays =
        (List.range ((transcribeAudio tAtt).trace.attempts - 1)).map
          (fun k => transcribeDelayMs (1 + k))) ∧
    (∀ sAtt : Nat → Except ApiError ChatResponse,
      (generateSummary sAtt).trace.delays =
        (List.range ((generateSummary sAtt).trace.attempts - 1)).map
          (fun k => summaryDelayMs (1 + k))) ∧
    (∀ n, transcribeDelayMs n = min (1000 * 2 ^ n) 30000) ∧
    (∀ n, summaryDelayMs n = min (1000 * 2 ^ n) 10000) := by
  refine ⟨?_, ?_, fun n => rfl, fun n => rfl⟩
  · intro tAtt
    exact transcribeLoop_top_delays tAtt 5 4
  · intro sAtt
    exact summaryLoop_top_delays sAtt 3 2

/-- Claim C6: when the download response has a non-2xx status, the
orchestrator throws the download error carrying status and status text, the
Supabase state is untouched (no object uploaded, no metadata row), and no
speech or outbound call is attempted. -/
theorem claim_C6_download_failure (env : OrchEnv) (st : Supa)
    (sid callSid url : String) (dur : Option String)
    (h : responseOk env.download.status = false) :
    (processRecording env st sid callSid url dur).result = Except.error
      ⟨"Failed to download recording: " ++ toString env.download.status
        ++ " " ++ env.download.statusText⟩ ∧
    (processRecording env st sid callSid url dur).state = st ∧
    (processRecording env st sid callSid url dur).ttsInvoked = false ∧
    (processRecording env st sid callSid url dur).outboundCallInvoked = false := by
  unfold processRecording
  simp [h]

/-- A concrete environment whose download returns HTTP 404. -/
def env404 : OrchEnv :=
  { download := { status := 404, statusText := "Not Found", body := [] }
    storage := { uploadError := none, writeError := none }
    tAttempt := fun _ => Except.ok "hello world"
    sAttempt := fun _ => Except.ok { content := some "a summary" }
    tsStorage := { uploadError := none, writeError := none }
    callLookup := Except.ok { from_ := some "+15550001111" }
    tts := { speechResult := Except.ok [1], uploadError := none }
    outboundCall := Except.ok ()
    now := "2026-01-01T00:00:00.000Z" }

/-- Witness for claim C6 at a concrete 404 download response. -/
theorem claim_C6_download_failure_witness :
    responseOk env404.download.status = false ∧
    (processRecording env404 emptySupa "RE1" "CA1" "u" (some "30")).state = emptySupa := by
  have h := claim_C6_download_failure env404 emptySupa "RE1" "CA1" "u" (some "30") (by decide)
  exact ⟨by decide, h.2.1⟩

/-- Claim C10: whenever generateSummary returns rather than throwing, the
returned string is non-empty: the model content when non-empty, the string
No summary generated when content is missing or empty, or the fixed fallback
string after retry exhaustion. -/
theorem claim_C10_summary_nonempty (sAtt : Nat → Except ApiError ChatResponse)
    (s : String) (h : (generateSummary sAtt).result = Except.ok s) :
    s ≠ "" ∧
    ((∃ n r, sAtt n = Except.ok r ∧ r.content = some s) ∨
      s = "No summary generated" ∨
      s = "Error generating summary. Please try again later.") := by
  have hc := summaryLoop_ok_cases sAtt 3 3 0 0 [] s (by omega) (by omega) h
  rcases hc with ⟨n, r, hn, hs⟩ | hs
  · cases hr : r.content with
    | none =>
      rw [hr] at hs
      simp [jsOrDefault] at hs
      subst hs
      exact ⟨by decide, Or.inr (Or.inl rfl)⟩
    | some c =>
      rw [hr] at hs
      by_cases hce : c.isEmpty
      · rw [(String.isEmpty_iff c).mp hce] at hs
        simp [jsOrDefault] at hs
        subst hs
        exact ⟨by decide, Or.inr (Or.inl rfl)⟩
      · simp [jsOrDefault, hce] at hs
        subst hs
        refine ⟨?_, Or.inl ⟨n, r, hn, hr⟩⟩
        intro hEq
        rw [hEq] at hce
        exact hce rfl
  · subst hs
    exact ⟨by decide, Or.inr (Or.inr rfl)⟩

/-- Witness for claim C10 at a concrete successful summarization oracle. -/
theorem claim_C10_summary_nonempty_witness :
    (generateSummary goodSAtt).result = Except.ok "Quick summary" ∧
    "Quick summary" ≠ "" := by
  have h0 : (generateSummary goodSAtt).result = Except.ok "Quick summary" := by rfl
  exact ⟨h0, (claim_C10_summary_nonempty goodSAtt "Quick summary" h0).1⟩

/-! ## Path lemmas for the orchestrator -/

theorem processRecording_storageErr (env : OrchEnv) (st : Supa)
    (sid callSid url : String) (dur : Option String) (e : JsError)
    (hd : responseOk env.download.status = true)
    (hsp : (storeRecording env.storage env.now st (FileContent.audio env.download.body)
      (orchMetadata sid callSid url dur)).1 = Except.error e) :
    processRecording env st sid callSid url dur =
      { result := Except.error e
        state := (storeRecording env.storage env.now st
          (FileContent.audio env.download.body) (orchMetadata sid callSid url dur)).2
        ttsInvoked := false, outboundCallInvoked := false } := by
  unfold processRecording
  rw [if_neg (by simp [hd])]
  simp only [hsp]

theorem processRecording_processingErr (env : OrchEnv) (st : Supa)
    (sid callSid url : String) (dur : Option String) (u : String) (e : JsError)
    (hd : responseOk env.download.status = true)
    (hsp : (storeRecording env.storage env.now st (FileContent.audio env.download.body)
      (orchMetadata sid callSid url dur)).1 = Except.ok u)
    (hpr : rpProcessRecording env.tAttempt env.sAttempt = Except.error e) :
    processRecording env st sid callSid url dur =
      { result := Except.error e
        state := (storeRecording env.storage env.now st
          (FileContent.audio env.download.body) (orchMetadata sid callSid url dur)).2
        ttsInvoked := false, outboundCallInvoked := false } := by
  unfold processRecording
  rw [if_neg (by simp [hd])]
  simp only [hsp, hpr]

theorem processRecording_tsErr (env : OrchEnv) (st : Supa)
    (sid callSid url : String) (dur : Option String) (u : String)
    (p : ProcessedRecording) (e : JsError)
    (hd : responseOk env.download.status = true)
    (hsp : (storeRecording env.storage env.now st (FileContent.audio env.download.body)
      (orchMetadata sid callSid url dur)).1 = Except.ok u)
    (hpr : rpProcessRecording env.tAttempt env.sAttempt = Except.ok p)
    (hts : (storeTranscriptionAndSummary env.tsStorage
      (storeRecording env.storage env.now st (FileContent.audio env.download.body)
        (orchMetadata sid callSid url dur)).2 sid p.transcription p.summary).1 =
      Except.error e) :
    processRecording env st sid callSid url dur =
      { result := Except.error e
        state := (storeTranscriptionAndSummary env.tsStorage
          (storeRecording env.storage env.now st (FileContent.audio env.download.body)
            (orchMetadata sid callSid url dur)).2 sid p.transcription p.summary).2
        ttsInvoked := false, outboundCallInvoked := false } := by
  unfold processRecording
  rw [if_neg (by simp [hd])]
  simp only [hsp, hpr, hts]

theorem processRecording_lookupErr (env : OrchEnv) (st : Supa)
    (sid callSid url : String) (dur : Option String) (u : String)
    (p : ProcessedRecording) (v : String × String) (e : JsError)
    (hd : responseOk env.download.status = true)
    (hsp : (storeRecording env.storage env.now st (FileContent.audio env.download.body)
      (orchMetadata sid callSid url dur)).1 = Except.ok u)
    (hpr : rpProcessRecording env.tAttempt env.sAttempt = Except.ok p)
    (hts : (storeTranscriptionAndSummary env.tsStorage
      (storeRecording env.storage env.now st (FileContent.audio env.download.body)
        (orchMetadata sid callSid url dur)).2 sid p.transcription p.summary).1 =
      Except.ok v)
    (hlk : env.callLookup = Except.error e) :
    processRecording env st sid callSid url dur =
      { result := Except.error e
        state := (storeTranscriptionAndSummary env.tsStorage
          (storeRecording env.storage env.now st (FileContent.audio env.download.body)
            (orchMetadata sid callSid url dur)).2 sid p.transcription p.summary).2
        ttsInvoked := false, outboundCallInvoked := false } := by
  unfold processRecording
  rw [if_neg (by simp [hd])]
  simp only [hsp, hpr, hts, hlk]

theorem processRecording_noCaller (env : OrchEnv) (st : Supa)
    (sid callSid url : String) (dur : Option String) (u : String)
    (p : ProcessedRecording) (v : String × String) (call : CallInfo)
    (hd : responseOk env.download.status = true)
    (hsp : (storeRecording env.storage env.now st (FileContent.audio env.download.body)
      (orchMetadata sid callSid url dur)).1 = Except.ok u)
    (hpr : rpProcessRecording env.tAttempt env.sAttempt = Except.ok p)
    (hts : (storeTranscriptionAndSummary env.tsStorage
      (storeRecording env.storage env.now st (FileContent.audio env.download.body)
        (orchMetadata sid callSid url dur)).2 sid p.transcription p.summary).1 =
      Except.ok v)
    (hlk : env.callLookup = Except.ok call)
    (hfrom : jsTruthy call.from_ = false) :
    processRecording env st sid callSid url dur =
      { result := Except.ok ()
        state := (storeTranscriptionAndSummary env.tsStorage
          (storeRecording env.storage env.now st (FileContent.audio env.download.body)
            (orchMetadata sid callSid url dur)).2 sid p.transcription p.summary).2
        ttsInvoked := false, outboundCallInvoked := false } := by
  unfold processRecording
  rw [if_neg (by simp [hd])]
  simp only [hsp, hpr, hts, hlk, hfrom, Bool.false_eq_true, if_false]

theorem processRecording_speechErr (env : OrchEnv) (st : Supa)
    (sid callSid url : String) (dur : Option String) (u : String)
    (p : ProcessedRecording) (v : String × String) (call : CallInfo) (e : JsError)
    (hd : responseOk env.download.status = true)
    (hsp : (storeRecording env.storage env.now st (FileContent.audio env.download.body)
      (orchMetadata sid callSid url dur)).1 = Except.ok u)
    (hpr : rpProcessRecording env.tAttempt env.sAttempt = Except.ok p)
    (hts : (storeTranscriptionAndSummary env.tsStorage
      (storeRecording env.storage env.now st (FileContent.audio env.download.body)
        (orchMetadata sid callSid url dur)).2 sid p.transcription p.summary).1 =
      Except.ok v)
    (hlk : env.callLookup = Except.ok call)
    (hfrom : jsTruthy call.from_ = true)
    (hgs : (generateSpeech env.tts
      (storeTranscriptionAndSummary env.tsStorage
        (storeRecording env.storage env.now st (FileContent.audio env.download.body)
          (orchMetadata sid callSid url dur)).2 sid p.transcription p.summary).2
      (summaryText p.summary) sid).1 = Except.error e) :
    processRecording env st sid callSid url dur =
      { result := Except.ok ()
        state := (generateSpeech env.tts
          (storeTranscriptionAndSummary env.tsStorage
            (storeRecording env.storage env.now st (FileContent.audio env.download.body)
              (orchMetadata sid callSid url dur)).2 sid p.transcription p.summary).2
          (summaryText p.summary) sid).2
        ttsInvoked := true, outboundCallInvoked := false } := by
  unfold processRecording
  rw [if_neg (by simp [hd])]
  simp only [hsp, hpr, hts, hlk, hfrom, if_true, hgs]

theorem processRecording_speechOk (env : OrchEnv) (st : Supa)
    (sid callSid url : String) (dur : Option String) (u : String)
    (p : ProcessedRecording) (v : String × String) (call : CallInfo) (su : String)
    (hd : responseOk env.download.status = true)
    (hsp : (storeRecording env.storage env.now st (FileContent.audio env.download.body)
      (orchMetadata sid callSid url dur)).1 = Except.ok u)
    (hpr : rpProcessRecording env.tAttempt env.sAttempt = Except.ok p)
    (hts : (storeTranscriptionAndSummary env.tsStorage
      (storeRecording env.storage env.now st (FileContent.audio env.download.body)
        (orchMetadata sid callSid url dur)).2 sid p.transcription p.summary).1 =
      Except.ok v)
    (hlk : env.callLookup = Except.ok call)
    (hfrom : jsTruthy call.from_ = true)
    (hgs : (generateSpeech env.tts
      (storeTranscriptionAndSummary env.tsStorage
        (storeRecording env.storage env.now st (FileContent.audio env.download.body)
          (orchMetadata sid callSid url dur)).2 sid p.transcription p.summary).2
      (summaryText p.summary) sid).1 = Except.ok su) :
    processRecording env st sid callSid url dur =
      { result := Except.ok ()
        state := (generateSpeech env.tts
          (storeTranscriptionAndSummary env.tsStorage
            (storeRecording env.storage env.now st (FileContent.audio env.download.body)
              (orchMetadata sid callSid url dur)).2 sid p.transcription p.summary).2
          (summaryText p.summary) sid).2
        ttsInvoked := true, outboundCallInvoked := true } := by
  unfold processRecording
  rw [if_neg (by simp [hd])]
  simp only [hsp, hpr, hts, hlk, hfrom, if_true, hgs]
  cases hob : env.outboundCall with
  | error e2 => simp [hob]
  | ok un => simp [hob]

/-- The `storeRecording` call issued by one orchestrator run. -/
def orchStorage (env : OrchEnv) (st : Supa) (sid callSid url : String)
    (dur : Option String) : (Except JsError String) × Supa :=
  storeRecording env.storage env.now st (FileContent.audio env.download.body)
    (orchMetadata sid callSid url dur)

/-- The `storeTranscriptionAndSummary` call issued by one orchestrator run
once the concurrent phase produced `p`. -/
def orchTS (env : OrchEnv) (st : Supa) (sid callSid url : String)
    (dur : Option String) (p : ProcessedRecording) :
    (Except JsError (String × String)) × Supa :=
  storeTranscriptionAndSummary env.tsStorage (orchStorage env st sid callSid url dur).2
    sid p.transcription p.summary

/-- The `generateSpeech` call issued by one orchestrator run. -/
def orchSpeech (env : OrchEnv) (st : Supa) (sid callSid url : String)
    (dur : Option String) (p : ProcessedRecording) : (Except JsError String) × Supa :=
  generateSpeech env.tts (orchTS env st sid callSid url dur p).2 (summaryText p.summary) sid

theorem orchStorage_ok (env : OrchEnv) (st : Supa) (sid callSid url : String)
    (dur : Option String) (u : String)
    (h : (orchStorage env st sid callSid url dur).1 = Except.ok u) :
    u = getPublicUrl (sid ++ ".mp3") ∧
    (orchStorage env st sid callSid url dur).2.recordings =
      st.recordings ++ [insertedRow (orchMetadata sid callSid url dur) env.now] :=
  storeRecording_ok env.storage env.now st (FileContent.audio env.download.body)
    (orchMetadata sid callSid url dur) u h

theorem orchStorage_err (env : OrchEnv) (st : Supa) (sid callSid url : String)
    (dur : Option String) (e : JsError)
    (h : (orchStorage env st sid callSid url dur).1 = Except.error e) :
    (orchStorage env st sid callSid url dur).2.recordings = st.recordings :=
  storeRecording_err env.storage env.now st (FileContent.audio env.download.body)
    (orchMetadata sid callSid url dur) e h

theorem orchTS_ok (env : OrchEnv) (st : Supa) (sid callSid url : String)
    (dur : Option String) (p : ProcessedRecording) (v : String × String)
    (h : (orchTS env st sid callSid url dur p).1 = Except.ok v) :
    v = (getPublicUrl (sid ++ "_transcript.txt"), p.summary) ∧
    (orchTS env st sid callSid url dur p).2.recordings =
      (orchStorage env st sid callSid url dur).2.recordings.map
        (applyTranscriptUpdate sid (getPublicUrl (sid ++ "_transcript.txt")) p.summary) :=
  storeTS_ok env.tsStorage (orchStorage env st sid callSid url dur).2 sid
    p.transcription p.summary v h

theorem orchTS_err (env : OrchEnv) (st : Supa) (sid callSid url : String)
    (dur : Option String) (p : ProcessedRecording) (e : JsError)
    (h : (orchTS env st sid callSid url dur p).1 = Except.error e) :
    (orchTS env st sid callSid url dur p).2.recordings =
      (orchStorage env st sid callSid url dur).2.recordings :=
  storeTS_err env.tsStorage (orchStorage env st sid callSid url dur).2 sid
    p.transcription p.summary e h

theorem orchSpeech_recordings (env : OrchEnv) (st : Supa) (sid callSid url : String)
    (dur : Option String) (p : ProcessedRecording) :
    (orchSpeech env st sid callSid url dur p).2.recordings =
      (orchTS env st sid callSid url dur p).2.recordings :=
  generateSpeech_recordings env.tts (orchTS env st sid callSid url dur p).2
    (summaryText p.summary) sid

/-- Exhaustive characterization of the orchestrator run once the download
succeeded: exactly one of the seven control paths is taken. -/
theorem processRecording_cases (env : OrchEnv) (st : Supa)
    (sid callSid url : String) (dur : Option String)
    (hd : responseOk env.download.status = true) :
    (∃ e, (orchStorage env st sid callSid url dur).1 = Except.error e ∧
      processRecording env st sid callSid url dur =
        ⟨Except.error e, (orchStorage env st sid callSid url dur).2, false, false⟩) ∨
    (∃ u e, (orchStorage env st sid callSid url dur).1 = Except.ok u ∧
      rpProcessRecording env.tAttempt env.sAttempt = Except.error e ∧
      processRecording env st sid callSid url dur =
        ⟨Except.error e, (orchStorage env st sid callSid url dur).2, false, false⟩) ∨
    (∃ u p e, (orchStorage env st sid callSid url dur).1 = Except.ok u ∧
      rpProcessRecording env.tAttempt env.sAttempt = Except.ok p ∧
      (orchTS env st sid callSid url dur p).1 = Except.error e ∧
      processRecording env st sid callSid url dur =
        ⟨Except.error e, (orchTS env st sid callSid url dur p).2, false, false⟩) ∨
    (∃ u p v e, (orchStorage env st sid callSid url dur).1 = Except.ok u ∧
      rpProcessRecording env.tAttempt env.sAttempt = Except.ok p ∧
      (orchTS env st sid callSid url dur p).1 = Except.ok v ∧
      env.callLookup = Except.error e ∧
      processRecording env st sid callSid url dur =
        ⟨Except.error e, (orchTS env st sid callSid url dur p).2, false, false⟩) ∨
    (∃ u p v call, (orchStorage env st sid callSid url dur).1 = Except.ok u ∧
      rpProcessRecording env.tAttempt env.sAttempt = Except.ok p ∧
      (orchTS env st sid callSid url dur p).1 = Except.ok v ∧
      env.callLookup = Except.ok call ∧ jsTruthy call.from_ = false ∧
      processRecording env st sid callSid url dur =
        ⟨Except.ok (), (orchTS env st sid callSid url dur p).2, false, false⟩) ∨
    (∃ u p v call e, (orchStorage env st sid callSid url dur).1 = Except.ok u ∧
      rpProcessRecording env.tAttempt env.sAttempt = Except.ok p ∧
      (orchTS env st sid callSid url dur p).1 = Except.ok v ∧
      env.callLookup = Except.ok call ∧ jsTruthy call.from_ = true ∧
      (orchSpeech env st sid callSid url dur p).1 = Except.error e ∧
      processRecording env st sid callSid url dur =
        ⟨Except.ok (), (orchSpeech env st sid callSid url dur p).2, true, false⟩) ∨
    (∃ u p v call su, (orchStorage env st sid callSid url dur).1 = Except.ok u ∧
      rpProcessRecording env.tAttempt env.sAttempt = Except.ok p ∧
      (orchTS env st sid callSid url dur p).1 = Except.ok v ∧
      env.callLookup = Except.ok call ∧ jsTruthy call.from_ = true ∧
      (orchSpeech env st sid callSid url dur p).1 = Except.ok su ∧
      processRecording env st sid callSid url dur =
        ⟨Except.ok (), (orchSpeech env st sid callSid url dur p).2, true, true⟩) := by
  cases hsp : (orchStorage env st sid callSid url dur).1 with
  | error e =>
    exact Or.inl ⟨e, rfl,
      processRecording_storageErr env st sid callSid url dur e hd hsp⟩
  | ok u =>
    cases hpr : rpProcessRecording env.tAttempt env.sAttempt with
    | error e =>
      exact Or.inr (Or.inl ⟨u, e, rfl, rfl,
        processRecording_processingErr env st sid callSid url dur u e hd hsp hpr⟩)
    | ok p =>
      cases hts : (orchTS env st sid callSid url dur p).1 with
      | error e =>
        exact Or.inr (Or.inr (Or.inl ⟨u, p, e, rfl, rfl, hts,
          processRecording_tsErr env st sid callSid url dur u p e hd hsp hpr hts⟩))
      | ok v =>
        cases hlk : env.callLookup with
        | error e =>
          exact Or.inr (Or.inr (Or.inr (Or.inl ⟨u, p, v, e, rfl, rfl, hts, rfl,
            processRecording_lookupErr env st sid callSid url dur u p v e hd hsp hpr hts hlk⟩)))
        | ok call =>
          cases hfrom : jsTruthy call.from_ with
          | false =>
            exact Or.inr (Or.inr (Or.inr (Or.inr (Or.inl ⟨u, p, v, call, rfl, rfl, hts, rfl, hfrom,
              processRecording_noCaller env st sid callSid url dur u p v call hd hsp hpr hts hlk hfrom⟩))))
          | true =>
            cases hgs : (orchSpeech env st sid callSid url dur p).1 with
            | error e =>
              exact Or.inr (Or.inr (Or.inr (Or.inr (Or.inr (Or.inl
                ⟨u, p, v, call, e, rfl, rfl, hts, rfl, hfrom, hgs,
                processRecording_speechErr env st sid callSid url dur u p v call e hd hsp hpr hts hlk hfrom hgs⟩)))))
            | ok su =>
              exact Or.inr (Or.inr (Or.inr (Or.inr (Or.inr (Or.inr
                ⟨u, p, v, call, su, rfl, rfl, hts, rfl, hfrom, hgs,
                processRecording_speechOk env st sid callSid url dur u p v call su hd hsp hpr hts hlk hfrom hgs⟩)))))

theorem getPublicUrl_ne_empty (f : String) : getPublicUrl f ≠ "" := by
  intro h
  have hl := congrArg String.length h
  rw [getPublicUrl, String.length_append] at hl
  have : ("https://supabase.example.co/storage/v1/object/public/recordings/" : String).length = 64 := by decide
  rw [this] at hl
  simp at hl

theorem applyTranscriptUpdate_fresh (sid u s : String) (r : MetadataRow)
    (h : r.recording_sid ≠ sid) : applyTranscriptUpdate sid u s r = r := by
  unfold applyTranscriptUpdate
  rw [if_neg]
  simp [h]

theorem applyTranscriptUpdate_match (sid u s : String) (r : MetadataRow)
    (h : r.recording_sid = sid) :
    applyTranscriptUpdate sid u s r =
      { r with transcript_url := some u, audio_summary := some s } := by
  unfold applyTranscriptUpdate
  rw [if_pos]
  simp [h]

theorem map_applyTranscriptUpdate_fresh (sid u s : String) (l : List MetadataRow)
    (h : ∀ r ∈ l, r.recording_sid ≠ sid) :
    l.map (applyTranscriptUpdate sid u s) = l := by
  induction l with
  | nil => rfl
  | cons a t ih =>
    simp only [List.map_cons]
    rw [applyTranscriptUpdate_fresh sid u s a (h a (by simp)),
      ih (fun r hr => h r (by simp [hr]))]

/-- The storage environment with no injected provider failures. -/
def cleanStorage : StorageEnv := { uploadError := none, writeError := none }

/-- A state holding the artifacts of one stored recording RE1. -/
def supaWithRE1 : Supa :=
  (storeRecording cleanStorage "t0" emptySupa (FileContent.audio [1])
    { recording_sid := "RE1", call_sid := "CA1", duration := some 42
      audio_url := some "u", transcript_url := some "", audio_summary := some "" }).2

/-- Counterexample to claim C7 as stated: after one successful
storeTranscriptionAndSummary call for RE1, a second call for the same
recording identifier does not succeed — its transcript upload fails because
the object name already exists — and the Metadata Record keeps the first
call values, not the second. -/
theorem claim_C7_counterexample :
    (storeTranscriptionAndSummary cleanStorage supaWithRE1 "RE1" "tr1" "sum1").1 =
      Except.ok (getPublicUrl "RE1_transcript.txt", "sum1") ∧
    (storeTranscriptionAndSummary cleanStorage
      (storeTranscriptionAndSummary cleanStorage supaWithRE1 "RE1" "tr1" "sum1").2
      "RE1" "tr2" "sum2").1 =
      Except.error ⟨"Failed to upload transcript: The resource already exists"⟩ ∧
    (storeTranscriptionAndSummary cleanStorage
      (storeTranscriptionAndSummary cleanStorage supaWithRE1 "RE1" "tr1" "sum1").2
      "RE1" "tr2" "sum2").2.recordings.map MetadataRow.audio_summary = [some "sum1"] :=
  ⟨by rfl, by rfl, by rfl⟩

/-- Claim C7 amended: with no provider-side failures and a transcript object
not yet present, the first storeTranscriptionAndSummary call succeeds and
updates the existing rows in place — an update keyed by recording identifier
that preserves the row count, never a duplicate insert — while a second call
with the same recording identifier fails with the StorageError from the
duplicate transcript upload and leaves the state exactly as after the first
call (so the record keeps the first call values, not the second). -/
theorem claim_C7_amended (st : Supa) (sid t1 s1 t2 s2 : String)
    (h1 : st.objects.any (fun q => q.1 == sid ++ "_transcript.txt") = false) :
    (storeTranscriptionAndSummary cleanStorage st sid t1 s1).1 =
      Except.ok (getPublicUrl (sid ++ "_transcript.txt"), s1) ∧
    (storeTranscriptionAndSummary cleanStorage st sid t1 s1).2.recordings =
      st.recordings.map
        (applyTranscriptUpdate sid (getPublicUrl (sid ++ "_transcript.txt")) s1) ∧
    (storeTranscriptionAndSummary cleanStorage st sid t1 s1).2.recordings.length =
      st.recordings.length ∧
    (storeTranscriptionAndSummary cleanStorage
      (storeTranscriptionAndSummary cleanStorage st sid t1 s1).2 sid t2 s2).1 =
      Except.error ⟨"Failed to upload transcript: The resource already exists"⟩ ∧
    (storeTranscriptionAndSummary cleanStorage
      (storeTranscriptionAndSummary cleanStorage st sid t1 s1).2 sid t2 s2).2 =
      (storeTranscriptionAndSummary cleanStorage st sid t1 s1).2 := by
  have hfst : storeTranscriptionAndSummary cleanStorage st sid t1 s1 =
      (Except.ok (getPublicUrl (sid ++ "_transcript.txt"), s1),
       { objects := st.objects ++ [(sid ++ "_transcript.txt", FileContent.text t1)]
         recordings := st.recordings.map
           (applyTranscriptUpdate sid (getPublicUrl (sid ++ "_transcript.txt")) s1) }) := by
    unfold storeTranscriptionAndSummary uploadObject updateRows cleanStorage
    simp [h1]
  have hsnd : storeTranscriptionAndSummary cleanStorage
      (storeTranscriptionAndSummary cleanStorage st sid t1 s1).2 sid t2 s2 =
      (Except.error ⟨"Failed to upload transcript: The resource already exists"⟩,
       (storeTranscriptionAndSummary cleanStorage st sid t1 s1).2) := by
    rw [hfst]
    unfold storeTranscriptionAndSummary uploadObject cleanStorage
    simp [List.any_append]
  rw [hsnd, hfst]
  simp [List.length_map]

/-- Witness for the amended claim C7 at the concrete RE1 state. -/
theorem claim_C7_amended_witness :
    supaWithRE1.objects.any (fun q => q.1 == "RE1" ++ "_transcript.txt") = false ∧
    (storeTranscriptionAndSummary cleanStorage supaWithRE1 "RE1" "tr1" "sum1").2.recordings.length =
      supaWithRE1.recordings.length := by
  have h := claim_C7_amended supaWithRE1 "RE1" "tr1" "sum1" "tr2" "sum2" (by decide)
  exact ⟨by decide, h.2.2.1⟩

theorem controllerRespond_state (o : OrchOutcome) :
    (controllerRespond o).state = o.state := by
  unfold controllerRespond
  cases h : o.result <;> simp

theorem controllerRespond_not_badRequest (o : OrchOutcome) (m : String) :
    (controllerRespond o).response ≠ HttpOutcome.badRequest m := by
  unfold controllerRespond
  cases h : o.result <;> simp

theorem processRecording_downloadErr (env : OrchEnv) (st : Supa)
    (sid callSid url : String) (dur : Option String)
    (h : responseOk env.download.status = false) :
    processRecording env st sid callSid url dur =
      ⟨Except.error ⟨"Failed to download recording: " ++ toString env.download.status
        ++ " " ++ env.download.statusText⟩, st, false, false⟩ := by
  unfold processRecording
  rw [if_pos (by simp [h])]

/-- The metadata row for one recording after the transcript update. -/
def updatedRow (sid callSid url : String) (dur : Option String)
    (now summary : String) : MetadataRow :=
  { insertedRow (orchMetadata sid callSid url dur) now with
    transcript_url := some (getPublicUrl (sid ++ "_transcript.txt"))
    audio_summary := some summary }

theorem orchStorage_success (env : OrchEnv) (st : Supa) (sid callSid url : String)
    (dur : Option String)
    (hse : env.storage = cleanStorage)
    (hfresh : st.objects.any (fun q => q.1 == sid ++ ".mp3") = false) :
    (orchStorage env st sid callSid url dur).1 =
      Except.ok (getPublicUrl (sid ++ ".mp3")) := by
  unfold orchStorage storeRecording uploadObject insertRow
  rw [hse]
  unfold cleanStorage
  simp [orchMetadata, hfresh]

theorem tsOk_recordings (env : OrchEnv) (st : Supa) (sid callSid url : String)
    (dur : Option String) (u : String) (p : ProcessedRecording) (v : String × String)
    (hfresh : ∀ r ∈ st.recordings, r.recording_sid ≠ sid)
    (hsp : (orchStorage env st sid callSid url dur).1 = Except.ok u)
    (hts : (orchTS env st sid callSid url dur p).1 = Except.ok v) :
    (orchTS env st sid callSid url dur p).2.recordings =
      st.recordings ++ [updatedRow sid callSid url dur env.now p.summary] := by
  rw [(orchTS_ok env st sid callSid url dur p v hts).2,
    (orchStorage_ok env st sid callSid url dur u hsp).2, List.map_append,
    map_applyTranscriptUpdate_fresh _ _ _ _ hfresh]
  simp only [List.map_cons, List.map_nil, List.append_cancel_left_eq]
  rw [applyTranscriptUpdate_match _ _ _ _ (by simp [insertedRow, orchMetadata])]
  rfl

theorem processRecording_inserted_row (env : OrchEnv) (st : Supa)
    (sid callSid url : String) (dur : Option String) (u : String)
    (hd : responseOk env.download.status = true)
    (hsp : (orchStorage env st sid callSid url dur).1 = Except.ok u) :
    ∃ r ∈ (processRecording env st sid callSid url dur).state.recordings,
      r.recording_sid = sid ∧ r.duration = parseIntJS dur := by
  have hins := (orchStorage_ok env st sid callSid url dur u hsp).2
  have hmemIns : insertedRow (orchMetadata sid callSid url dur) env.now ∈
      (orchStorage env st sid callSid url dur).2.recordings := by
    rw [hins]; simp
  have hfields : (insertedRow (orchMetadata sid callSid url dur) env.now).recording_sid = sid ∧
      (insertedRow (orchMetadata sid callSid url dur) env.now).duration = parseIntJS dur := by
    simp [insertedRow, orchMetadata]
  have hmapMem : ∀ s' , ∃ r ∈ (orchStorage env st sid callSid url dur).2.recordings.map
      (applyTranscriptUpdate sid (getPublicUrl (sid ++ "_transcript.txt")) s'),
      r.recording_sid = sid ∧ r.duration = parseIntJS dur := by
    intro s'
    refine ⟨applyTranscriptUpdate sid (getPublicUrl (sid ++ "_transcript.txt")) s'
      (insertedRow (orchMetadata sid callSid url dur) env.now),
      List.mem_map_of_mem _ hmemIns, ?_, ?_⟩
    · rw [applyTranscriptUpdate_sid]; exact hfields.1
    · rw [applyTranscriptUpdate_duration]; exact hfields.2
  rcases processRecording_cases env st sid callSid url dur hd with
    ⟨e, hsp2, heq⟩ | ⟨u2, e, hsp2, hpr, heq⟩ | ⟨u2, p, e, hsp2, hpr, hts, heq⟩ |
    ⟨u2, p, v, e, hsp2, hpr, hts, hlk, heq⟩ | ⟨u2, p, v, call, hsp2, hpr, hts, hlk, hfrom, heq⟩ |
    ⟨u2, p, v, call, e, hsp2, hpr, hts, hlk, hfrom, hgs, heq⟩ |
    ⟨u2, p, v, call, su, hsp2, hpr, hts, hlk, hfrom, hgs, heq⟩
  · rw [hsp2] at hsp; exact absurd hsp (by simp)
  · have hst : (processRecording env st sid callSid url dur).state.recordings =
        (orchStorage env st sid callSid url dur).2.recordings := by rw [heq]
    rw [hst]
    exact ⟨insertedRow (orchMetadata sid callSid url dur) env.now, hmemIns,
      hfields.1, hfields.2⟩
  · have hst : (processRecording env st sid callSid url dur).state.recordings =
        (orchStorage env st sid callSid url dur).2.recordings := by
      rw [heq]
      exact orchTS_err env st sid callSid url dur p e hts
    rw [hst]
    exact ⟨insertedRow (orchMetadata sid callSid url dur) env.now, hmemIns,
      hfields.1, hfields.2⟩
  · have hst : (processRecording env st sid callSid url dur).state.recordings =
        (orchStorage env st sid callSid url dur).2.recordings.map
          (applyTranscriptUpdate sid (getPublicUrl (sid ++ "_transcript.txt")) p.summary) := by
      rw [heq]
      exact (orchTS_ok env st sid callSid url dur p v hts).2
    rw [hst]
    exact hmapMem p.summary
  · have hst : (processRecording env st sid callSid url dur).state.recordings =
        (orchStorage env st sid callSid url dur).2.recordings.map
          (applyTranscriptUpdate sid (getPublicUrl (sid ++ "_transcript.txt")) p.summary) := by
      rw [heq]
      exact (orchTS_ok env st sid callSid url dur p v hts).2
    rw [hst]
    exact hmapMem p.summary
  · have hst : (processRecording env st sid callSid url dur).state.recordings =
        (orchStorage env st sid callSid url dur).2.recordings.map
          (applyTranscriptUpdate sid (getPublicUrl (sid ++ "_transcript.txt")) p.summary) := by
      rw [heq]
      rw [show ((⟨Except.ok (), (orchSpeech env st sid callSid url dur p).2, true, false⟩ :
        OrchOutcome)).state = (orchSpeech env st sid callSid url dur p).2 from rfl]
      rw [orchSpeech_recordings]
      exact (orchTS_ok env st sid callSid url dur p v hts).2
    rw [hst]
    exact hmapMem p.summary
  · have hst : (processRecording env st sid callSid url dur).state.recordings =
        (orchStorage env st sid callSid url dur).2.recordings.map
          (applyTranscriptUpdate sid (getPublicUrl (sid ++ "_transcript.txt")) p.summary) := by
      rw [heq]
      rw [show ((⟨Except.ok (), (orchSpeech env st sid callSid url dur p).2, true, true⟩ :
        OrchOutcome)).state = (orchSpeech env st sid callSid url dur p).2 from rfl]
      rw [orchSpeech_recordings]
      exact (orchTS_ok env st sid callSid url dur p v hts).2
    rw [hst]
    exact hmapMem p.summary

/-- A concrete environment in which every remote call succeeds. -/
def envGood : OrchEnv :=
  { env404 with download := { status := 200, statusText := "OK", body := [1, 2] } }

/-- envGood with a call resource carrying no caller number. -/
def envNoFrom : OrchEnv :=
  { envGood with callLookup := Except.ok { from_ := none } }

/-- envGood with a failing caller lookup. -/
def envLookupFail : OrchEnv :=
  { envGood with callLookup := Except.error ⟨"lookup failed"⟩ }

/-- envGood with transcription failing transiently on every attempt. -/
def envC1 : OrchEnv :=
  { envGood with tAttempt := alwaysTransientT }

/-- A TTS oracle whose synthesis call fails. -/
def failingTts : TtsEnv :=
  { speechResult := Except.error boomError, uploadError := none }

/-- Claim C9: when the run reaches step 4 (download, storage, processing and
the transcript update all succeeded), the caller lookup succeeds, and the
returned call has a falsy caller number, processRecording resolves
successfully without invoking speech synthesis and without placing any
outbound call, and the state stays as committed by step 3. -/
theorem claim_C9_no_caller_number (env : OrchEnv) (st : Supa)
    (sid callSid url : String) (dur : Option String)
    (u : String) (p : ProcessedRecording) (v : String × String) (call : CallInfo)
    (hd : responseOk env.download.status = true)
    (hsp : (orchStorage env st sid callSid url dur).1 = Except.ok u)
    (hpr : rpProcessRecording env.tAttempt env.sAttempt = Except.ok p)
    (hts : (orchTS env st sid callSid url dur p).1 = Except.ok v)
    (hlk : env.callLookup = Except.ok call)
    (hfrom : jsTruthy call.from_ = false) :
    (processRecording env st sid callSid url dur).result = Except.ok () ∧
    (processRecording env st sid callSid url dur).ttsInvoked = false ∧
    (processRecording env st sid callSid url dur).outboundCallInvoked = false ∧
    (processRecording env st sid callSid url dur).state =
      (orchTS env st sid callSid url dur p).2 := by
  have h := processRecording_noCaller env st sid callSid url dur u p v call
    hd hsp hpr hts hlk hfrom
  rw [h]
  exact ⟨rfl, rfl, rfl, rfl⟩

/-- Witness for claim C9 at a concrete environment with an absent caller
number. -/
theorem claim_C9_no_caller_number_witness :
    jsTruthy ({ from_ := none } : CallInfo).from_ = false ∧
    (processRecording envNoFrom emptySupa "RE1" "CA1" "u" (some "30")).result =
      Except.ok () ∧
    (processRecording envNoFrom emptySupa "RE1" "CA1" "u" (some "30")).ttsInvoked = false ∧
    (processRecording envNoFrom emptySupa "RE1" "CA1" "u" (some "30")).outboundCallInvoked =
      false := by
  have h := claim_C9_no_caller_number envNoFrom emptySupa "RE1" "CA1" "u" (some "30")
    (getPublicUrl "RE1.mp3") ⟨"hello world", "a summary"⟩
    (getPublicUrl "RE1_transcript.txt", "a summary") ⟨none⟩
    (by decide) (by rfl) (by rfl) (by rfl) (by rfl) (by decide)
  exact ⟨by decide, h.1, h.2.1, h.2.2.1⟩

/-- Claim C8: a webhook body carrying RecordingUrl, RecordingSid and CallSid
but whose RecordingDuration is absent or non-numeric (parseInt gives NaN) is
not rejected with 400; the pipeline runs and the Metadata Record is inserted
with the NaN duration rather than a non-negative integer. -/
theorem claim_C8_duration_nan (env : OrchEnv) (st : Supa) (body : WebhookBody)
    (hu : jsTruthy body.RecordingUrl = true)
    (hsid : jsTruthy body.RecordingSid = true)
    (hcall : jsTruthy body.CallSid = true)
    (hdur : parseIntJS body.RecordingDuration = none)
    (hd : responseOk env.download.status = true)
    (hse : env.storage = cleanStorage)
    (hfresh : st.objects.any
      (fun q => q.1 == (body.RecordingSid.getD "") ++ ".mp3") = false) :
    (∀ m, (handleRecordingStatus env st body).response ≠ HttpOutcome.badRequest m) ∧
    ∃ r ∈ (handleRecordingStatus env st body).state.recordings,
      r.recording_sid = body.RecordingSid.getD "" ∧ r.duration = none := by
  have hsp := orchStorage_success env st (body.RecordingSid.getD "")
    (body.CallSid.getD "") (body.RecordingUrl.getD "") body.RecordingDuration hse hfresh
  have hrow := processRecording_inserted_row env st (body.RecordingSid.getD "")
    (body.CallSid.getD "") (body.RecordingUrl.getD "") body.RecordingDuration _ hd hsp
  rw [hdur] at hrow
  unfold handleRecordingStatus
  rw [if_neg (by simp [hu, hsid, hcall])]
  refine ⟨fun m => controllerRespond_not_badRequest _ m, ?_⟩
  rw [controllerRespond_state]
  exact hrow

/-- A concrete webhook body without a usable RecordingDuration. -/
def bodyNoDur : WebhookBody :=
  { RecordingUrl := some "u", RecordingSid := some "RE1", CallSid := some "CA1"
    RecordingDuration := none, RecordingStatus := some "completed" }

/-- Witness for claim C8 at a concrete webhook body with no duration. -/
theorem claim_C8_duration_nan_witness :
    parseIntJS bodyNoDur.RecordingDuration = none ∧
    ∃ r ∈ (handleRecordingStatus envGood emptySupa bodyNoDur).state.recordings,
      r.recording_sid = bodyNoDur.RecordingSid.getD "" ∧ r.duration = none := by
  have h := claim_C8_duration_nan envGood emptySupa bodyNoDur
    (by decide) (by decide) (by decide) (by decide) (by decide) (by rfl) (by decide)
  exact ⟨by decide, h.2⟩

/-- Counterexample to claim C2 as stated: when the caller-number lookup of
step 4 fails, processRecording does not resolve successfully — the lookup
sits outside the inner try/catch, so its error propagates — although the
Metadata Record committed in step 3 does remain in place. -/
theorem claim_C2_counterexample :
    (processRecording envLookupFail emptySupa "RE1" "CA1" "u" (some "30")).result =
      Except.error ⟨"lookup failed"⟩ ∧
    (processRecording envLookupFail emptySupa "RE1" "CA1" "u" (some "30")).result ≠
      Except.ok () ∧
    (processRecording envLookupFail emptySupa "RE1" "CA1" "u" (some "30")).state.recordings.map
      MetadataRow.recording_sid = ["RE1"] := by
  have h1 : (processRecording envLookupFail emptySupa "RE1" "CA1" "u" (some "30")).result =
      Except.error ⟨"lookup failed"⟩ := by rfl
  refine ⟨h1, ?_, by rfl⟩
  intro hok
  rw [h1] at hok
  exact absurd hok (by simp)

/-- Claim C2 amended: failures of speech synthesis or outbound-call placement
are swallowed — the promise outcome and the metadata table never depend on
the TTS and outbound-call oracles, so the Metadata Record committed in step 3
remains; but a failure of the caller-number lookup itself is not swallowed:
whenever the lookup oracle fails, processRecording does not resolve
successfully. -/
theorem claim_C2_amended_swallowed_step4 (env : OrchEnv) (st : Supa)
    (sid callSid url : String) (dur : Option String) :
    (∀ (tts2 : TtsEnv) (ob2 : Except JsError Unit),
      (processRecording { env with tts := tts2, outboundCall := ob2 }
        st sid callSid url dur).result =
        (processRecording env st sid callSid url dur).result ∧
      (processRecording { env with tts := tts2, outboundCall := ob2 }
        st sid callSid url dur).state.recordings =
        (processRecording env st sid callSid url dur).state.recordings) ∧
    (∀ e, env.callLookup = Except.error e →
      (processRecording env st sid callSid url dur).result ≠ Except.ok ()) := by
  constructor
  · intro tts2 ob2
    cases hd : responseOk env.download.status with
    | false =>
      rw [processRecording_downloadErr env st sid callSid url dur hd,
        processRecording_downloadErr { env with tts := tts2, outboundCall := ob2 }
          st sid callSid url dur hd]
      exact ⟨rfl, rfl⟩
    | true =>
      rcases processRecording_cases env st sid callSid url dur hd with
        ⟨e, hsp, heq⟩ | ⟨u, e, hsp, hpr, heq⟩ | ⟨u, p, e, hsp, hpr, hts, heq⟩ |
        ⟨u, p, v, e, hsp, hpr, hts, hlk, heq⟩ |
        ⟨u, p, v, call, hsp, hpr, hts, hlk, hfrom, heq⟩ |
        ⟨u, p, v, call, e, hsp, hpr, hts, hlk, hfrom, hgs, heq⟩ |
        ⟨u, p, v, call, su, hsp, hpr, hts, hlk, hfrom, hgs, heq⟩
      · rw [heq, processRecording_storageErr { env with tts := tts2, outboundCall := ob2 }
          st sid callSid url dur e hd hsp]
        exact ⟨rfl, rfl⟩
      · rw [heq, processRecording_processingErr { env with tts := tts2, outboundCall := ob2 }
          st sid callSid url dur u e hd hsp hpr]
        exact ⟨rfl, rfl⟩
      · rw [heq, processRecording_tsErr { env with tts := tts2, outboundCall := ob2 }
          st sid callSid url dur u p e hd hsp hpr hts]
        exact ⟨rfl, rfl⟩
      · rw [heq, processRecording_lookupErr { env with tts := tts2, outboundCall := ob2 }
          st sid callSid url dur u p v e hd hsp hpr hts hlk]
        exact ⟨rfl, rfl⟩
      · rw [heq, processRecording_noCaller { env with tts := tts2, outboundCall := ob2 }
          st sid callSid url dur u p v call hd hsp hpr hts hlk hfrom]
        exact ⟨rfl, rfl⟩
      · cases hgs2 : (orchSpeech { env with tts := tts2, outboundCall := ob2 }
            st sid callSid url dur p).1 with
        | error e2 =>
          rw [heq, processRecording_speechErr { env with tts := tts2, outboundCall := ob2 }
            st sid callSid url dur u p v call e2 hd hsp hpr hts hlk hfrom hgs2]
          refine ⟨rfl, ?_⟩
          show (orchSpeech { env with tts := tts2, outboundCall := ob2 }
            st sid callSid url dur p).2.recordings =
            (orchSpeech env st sid callSid url dur p).2.recordings
          rw [orchSpeech_recordings, orchSpeech_recordings]
          rfl
        | ok su2 =>
          rw [heq, processRecording_speechOk { env with tts := tts2, outboundCall := ob2 }
            st sid callSid url dur u p v call su2 hd hsp hpr hts hlk hfrom hgs2]
          refine ⟨rfl, ?_⟩
          show (orchSpeech { env with tts := tts2, outboundCall := ob2 }
            st sid callSid url dur p).2.recordings =
            (orchSpeech env st sid callSid url dur p).2.recordings
          rw [orchSpeech_recordings, orchSpeech_recordings]
          rfl
      · cases hgs2 : (orchSpeech { env with tts := tts2, outboundCall := ob2 }
            st sid callSid url dur p).1 with
        | error e2 =>
          rw [heq, processRecording_speechErr { env with tts := tts2, outboundCall := ob2 }
            st sid callSid url dur u p v call e2 hd hsp hpr hts hlk hfrom hgs2]
          refine ⟨rfl, ?_⟩
          show (orchSpeech { env with tts := tts2, outboundCall := ob2 }
            st sid callSid url dur p).2.recordings =
            (orchSpeech env st sid callSid url dur p).2.recordings
          rw [orchSpeech_recordings, orchSpeech_recordings]
          rfl
        | ok su2 =>
          rw [heq, processRecording_speechOk { env with tts := tts2, outboundCall := ob2 }
            st sid callSid url dur u p v call su2 hd hsp hpr hts hlk hfrom hgs2]
          refine ⟨rfl, ?_⟩
          show (orchSpeech { env with tts := tts2, outboundCall := ob2 }
            st sid callSid url dur p).2.recordings =
            (orchSpeech env st sid callSid url dur p).2.recordings
          rw [orchSpeech_recordings, orchSpeech_recordings]
          rfl
  · intro e hlk hok
    cases hd : responseOk env.download.status with
    | false =>
      rw [processRecording_downloadErr env st sid callSid url dur hd] at hok
      exact absurd hok (by simp)
    | true =>
      rcases processRecording_cases env st sid callSid url dur hd with
        ⟨e2, hsp, heq⟩ | ⟨u, e2, hsp, hpr, heq⟩ | ⟨u, p, e2, hsp, hpr, hts, heq⟩ |
        ⟨u, p, v, e2, hsp, hpr, hts, hlk2, heq⟩ |
        ⟨u, p, v, call, hsp, hpr, hts, hlk2, hfrom, heq⟩ |
        ⟨u, p, v, call, e2, hsp, hpr, hts, hlk2, hfrom, hgs, heq⟩ |
        ⟨u, p, v, call, su, hsp, hpr, hts, hlk2, hfrom, hgs, heq⟩
      · rw [heq] at hok; exact absurd hok (by simp)
      · rw [heq] at hok; exact absurd hok (by simp)
      · rw [heq] at hok; exact absurd hok (by simp)
      · rw [heq] at hok; exact absurd hok (by simp)
      · rw [hlk] at hlk2; exact absurd hlk2 (by simp)
      · rw [hlk] at hlk2; exact absurd hlk2 (by simp)
      · rw [hlk] at hlk2; exact absurd hlk2 (by simp)

/-- Witness for the amended claim C2: at a concrete fully-successful
environment a failing TTS and a failing outbound call leave the result
unchanged, and at a concrete failing-lookup environment the run does not
resolve. -/
theorem claim_C2_amended_swallowed_step4_witness :
    (processRecording { envGood with tts := failingTts, outboundCall := Except.error ⟨"call failed"⟩ }
      emptySupa "RE1" "CA1" "u" (some "30")).result =
      (processRecording envGood emptySupa "RE1" "CA1" "u" (some "30")).result ∧
    envLookupFail.callLookup = Except.error ⟨"lookup failed"⟩ ∧
    (processRecording envLookupFail emptySupa "RE1" "CA1" "u" (some "30")).result ≠
      Except.ok () := by
  have h1 := claim_C2_amended_swallowed_step4 envGood emptySupa "RE1" "CA1" "u" (some "30")
  have h2 := claim_C2_amended_swallowed_step4 envLookupFail emptySupa "RE1" "CA1" "u" (some "30")
  exact ⟨(h1.1 failingTts (Except.error ⟨"call failed"⟩)).1, rfl,
    h2.2 ⟨"lookup failed"⟩ rfl⟩

/-- Counterexample to claim C1 as stated: with storage succeeding and the
transcription task failing transiently on every attempt, the concurrent
phase fails and processRecording throws — yet a Metadata Record for the
recording has been committed by the storage task, refuting that no metadata
is committed when a stage of the concurrent phase fails. -/
theorem claim_C1_counterexample :
    (processRecording envC1 emptySupa "RE1" "CA1" "u" (some "42")).result =
      Except.error ⟨"Transcription failed after 5 attempts: boom"⟩ ∧
    (processRecording envC1 emptySupa "RE1" "CA1" "u" (some "42")).state.recordings.map
      MetadataRow.recording_sid = ["RE1"] :=
  ⟨by rfl, by rfl⟩

/-- Claim C1 amended: processRecording never commits a record with empty
audio_url — every record it adds carries the storage public URL — and when
it resolves successfully the record for the recording is fully committed
with transcript URL and summary set; but the Metadata Record is inserted by
the storage task itself during the concurrent phase, so when the run throws
the table either is unchanged or already holds the one record for this
recording (with non-empty audio_url), as happens when storage succeeds and
transcription fails. -/
theorem claim_C1_amended_commit (env : OrchEnv) (st : Supa)
    (sid callSid url : String) (dur : Option String)
    (hinv : ∀ r ∈ st.recordings, r.audio_url ≠ "")
    (hfresh : ∀ r ∈ st.recordings, r.recording_sid ≠ sid) :
    (∀ r ∈ (processRecording env st sid callSid url dur).state.recordings,
      r.audio_url ≠ "") ∧
    ((processRecording env st sid callSid url dur).result = Except.ok () →
      ∃ r ∈ (processRecording env st sid callSid url dur).state.recordings,
        r.recording_sid = sid ∧ r.audio_url ≠ "" ∧
        r.transcript_url = some (getPublicUrl (sid ++ "_transcript.txt")) ∧
        ∃ s, r.audio_summary = some s) ∧
    ((processRecording env st sid callSid url dur).result ≠ Except.ok () →
      (processRecording env st sid callSid url dur).state.recordings = st.recordings ∨
      ∃ row, (processRecording env st sid callSid url dur).state.recordings =
        st.recordings ++ [row] ∧ row.recording_sid = sid ∧ row.audio_url ≠ "") := by
  cases hd : responseOk env.download.status with
  | false =>
    have heq := processRecording_downloadErr env st sid callSid url dur hd
    have hres : (processRecording env st sid callSid url dur).result =
        Except.error ⟨"Failed to download recording: " ++ toString env.download.status
          ++ " " ++ env.download.statusText⟩ := by rw [heq]
    have hst : (processRecording env st sid callSid url dur).state.recordings =
        st.recordings := by rw [heq]
    refine ⟨?_, ?_, ?_⟩
    · intro r hr; rw [hst] at hr; exact hinv r hr
    · intro hok; rw [hres] at hok; exact absurd hok (by simp)
    · intro _; exact Or.inl hst
  | true =>
    rcases processRecording_cases env st sid callSid url dur hd with
      ⟨e, hsp, heq⟩ | ⟨u, e, hsp, hpr, heq⟩ | ⟨u, p, e, hsp, hpr, hts, heq⟩ |
      ⟨u, p, v, e, hsp, hpr, hts, hlk, heq⟩ |
      ⟨u, p, v, call, hsp, hpr, hts, hlk, hfrom, heq⟩ |
      ⟨u, p, v, call, e, hsp, hpr, hts, hlk, hfrom, hgs, heq⟩ |
      ⟨u, p, v, call, su, hsp, hpr, hts, hlk, hfrom, hgs, heq⟩
    · have hres : (processRecording env st sid callSid url dur).result =
          Except.error e := by rw [heq]
      have hst : (processRecording env st sid callSid url dur).state.recordings =
          st.recordings := by
        rw [heq]; exact orchStorage_err env st sid callSid url dur e hsp
      refine ⟨?_, ?_, ?_⟩
      · intro r hr; rw [hst] at hr; exact hinv r hr
      · intro hok; rw [hres] at hok; exact absurd hok (by simp)
      · intro _; exact Or.inl hst
    · have hres : (processRecording env st sid callSid url dur).result =
          Except.error e := by rw [heq]
      have hst : (processRecording env st sid callSid url dur).state.recordings =
          st.recordings ++ [insertedRow (orchMetadata sid callSid url dur) env.now] := by
        rw [heq]; exact (orchStorage_ok env st sid callSid url dur u hsp).2
      refine ⟨?_, ?_, ?_⟩
      · intro r hr
        rw [hst] at hr
        rcases List.mem_append.mp hr with h | h
        · exact hinv r h
        · rw [List.mem_singleton] at h; subst h
          exact getPublicUrl_ne_empty _
      · intro hok; rw [hres] at hok; exact absurd hok (by simp)
      · intro _
        exact Or.inr ⟨insertedRow (orchMetadata sid callSid url dur) env.now, hst,
          by simp [insertedRow, orchMetadata], getPublicUrl_ne_empty _⟩
    · have hres : (processRecording env st sid callSid url dur).result =
          Except.error e := by rw [heq]
      have hst : (processRecording env st sid callSid url dur).state.recordings =
          st.recordings ++ [insertedRow (orchMetadata sid callSid url dur) env.now] := by
        rw [heq]
        show (orchTS env st sid callSid url dur p).2.recordings = _
        rw [orchTS_err env st sid callSid url dur p e hts]
        exact (orchStorage_ok env st sid callSid url dur u hsp).2
      refine ⟨?_, ?_, ?_⟩
      · intro r hr
        rw [hst] at hr
        rcases List.mem_append.mp hr with h | h
        · exact hinv r h
        · rw [List.mem_singleton] at h; subst h
          exact getPublicUrl_ne_empty _
      · intro hok; rw [hres] at hok; exact absurd hok (by simp)
      · intro _
        exact Or.inr ⟨insertedRow (orchMetadata sid callSid url dur) env.now, hst,
          by simp [insertedRow, orchMetadata], getPublicUrl_ne_empty _⟩
    · have hres : (processRecording env st sid callSid url dur).result =
          Except.error e := by rw [heq]
      have hst : (processRecording env st sid callSid url dur).state.recordings =
          st.recordings ++ [updatedRow sid callSid url dur env.now p.summary] := by
        rw [heq]
        show (orchTS env st sid callSid url dur p).2.recordings = _
        exact tsOk_recordings env st sid callSid url dur u p v hfresh hsp hts
      refine ⟨?_, ?_, ?_⟩
      · intro r hr
        rw [hst] at hr
        rcases List.mem_append.mp hr with h | h
        · exact hinv r h
        · rw [List.mem_singleton] at h; subst h
          exact getPublicUrl_ne_empty _
      · intro hok; rw [hres] at hok; exact absurd hok (by simp)
      · intro _
        exact Or.inr ⟨updatedRow sid callSid url dur env.now p.summary, hst,
          by simp [updatedRow, insertedRow, orchMetadata], getPublicUrl_ne_empty _⟩
    · have hres : (processRecording env st sid callSid url dur).result =
          Except.ok () := by rw [heq]
      have hst : (processRecording env st sid callSid url dur).state.recordings =
          st.recordings ++ [updatedRow sid callSid url dur env.now p.summary] := by
        rw [heq]
        show (orchTS env st sid callSid url dur p).2.recordings = _
        exact tsOk_recordings env st sid callSid url dur u p v hfresh hsp hts
      refine ⟨?_, ?_, ?_⟩
      · intro r hr
        rw [hst] at hr
        rcases List.mem_append.mp hr with h | h
        · exact hinv r h
        · rw [List.mem_singleton] at h; subst h
          exact getPublicUrl_ne_empty _
      · intro _
        refine ⟨updatedRow sid callSid url dur env.now p.summary, ?_,
          by simp [updatedRow, insertedRow, orchMetadata], getPublicUrl_ne_empty _,
          rfl, ⟨p.summary, rfl⟩⟩
        rw [hst]; simp
      · intro hne; exact absurd hres hne
    · have hres : (processRecording env st sid callSid url dur).result =
          Except.ok () := by rw [heq]
      have hst : (processRecording env st sid callSid url dur).state.recordings =
          st.recordings ++ [updatedRow sid callSid url dur env.now p.summary] := by
        rw [heq]
        show (orchSpeech env st sid callSid url dur p).2.recordings = _
        rw [orchSpeech_recordings]
        exact tsOk_recordings env st sid callSid url dur u p v hfresh hsp hts
      refine ⟨?_, ?_, ?_⟩
      · intro r hr
        rw [hst] at hr
        rcases List.mem_append.mp hr with h | h
        · exact hinv r h
        · rw [List.mem_singleton] at h; subst h
          exact getPublicUrl_ne_empty _
      · intro _
        refine ⟨updatedRow sid callSid url dur env.now p.summary, ?_,
          by simp [updatedRow, insertedRow, orchMetadata], getPublicUrl_ne_empty _,
          rfl, ⟨p.summary, rfl⟩⟩
        rw [hst]; simp
      · intro hne; exact absurd hres hne
    · have hres : (processRecording env st sid callSid url dur).result =
          Except.ok () := by rw [heq]
      have hst : (processRecording env st sid callSid url dur).state.recordings =
          st.recordings ++ [updatedRow sid callSid url dur env.now p.summary] := by
        rw [heq]
        show (orchSpeech env st sid callSid url dur p).2.recordings = _
        rw [orchSpeech_recordings]
        exact tsOk_recordings env st sid callSid url dur u p v hfresh hsp hts
      refine ⟨?_, ?_, ?_⟩
      · intro r hr
        rw [hst] at hr
        rcases List.mem_append.mp hr with h | h
        · exact hinv r h
        · rw [List.mem_singleton] at h; subst h
          exact getPublicUrl_ne_empty _
      · intro _
        refine ⟨updatedRow sid callSid url dur env.now p.summary, ?_,
          by simp [updatedRow, insertedRow, orchMetadata], getPublicUrl_ne_empty _,
          rfl, ⟨p.summary, rfl⟩⟩
        rw [hst]; simp
      · intro hne; exact absurd hres hne

/-- Witness for the amended claim C1 at a concrete fully-successful
environment starting from the empty state. -/
theorem claim_C1_amended_commit_witness :
    (processRecording envGood emptySupa "RE1" "CA1" "u" (some "30")).result =
      Except.ok () ∧
    ∃ r ∈ (processRecording envGood emptySupa "RE1" "CA1" "u" (some "30")).state.recordings,
      r.recording_sid = "RE1" ∧ r.audio_url ≠ "" ∧
      r.transcript_url = some (getPublicUrl ("RE1" ++ "_transcript.txt")) ∧
      ∃ s, r.audio_summary = some s := by
  have h := claim_C1_amended_commit envGood emptySupa "RE1" "CA1" "u" (some "30")
    (by simp [emptySupa]) (by simp [emptySupa])
  have hres : (processRecording envGood emptySupa "RE1" "CA1" "u" (some "30")).result =
      Except.ok () := by rfl
  exact ⟨hres, h.2.1 hres⟩

end ValeriAudio
